import Mathlib

/-!
# Verification of jquery.video-frame-animation

A shallow embedding of `src/js/jquery.video-frame-animation.js` (a scroll-driven
frame-sequence animator) together with proofs about its claimed properties.

Modelling conventions:
* JS numbers used as frame indices / counters are embedded as `Int`;
  scroll offsets and pixel sizes as `ℚ` (idealised real arithmetic).
* The module-level mutable variables (`currentImg`, `preloaded`, `animating`, ...)
  become fields of an explicit `State` record; every function of the plugin
  becomes a `State → State` transformer.
* The DOM display surface (`$this.children('img')`) is the list `State.attached`
  of elements, each carrying its `src` string, `data-frame` tag, `data-upgraded`
  tag and visibility.  The offscreen upgrade wrapper is `State.staged`.
* Asynchronous `imagesLoaded` callbacks are modelled as completing immediately
  (the load-completion continuation runs right after the element is appended);
  the separate `upgradeLoaded` transformer models the high-res load-completion
  callback as its own step.  `setTimeout(preload, 5)` re-invocations are
  modelled as separate `Op.preloadTimer` steps.
* Network requests issued by `preloadNext` (the `image.src = ...` assignment)
  are recorded in `State.fetchLog`; invocations of the `onShowFrame` user
  callback are recorded in `State.shownLog`.
-/

/-! ## zerofill (source lines 363-372) -/

/-- The `while (numStr.length < len) numStr = '0' + numStr` loop of `zerofill`. -/
def zerofillAux (numStr : String) (len : Nat) : String :=
  if _h : numStr.length < len then zerofillAux ("0" ++ numStr) len else numStr
termination_by len - numStr.length
decreasing_by
  have h1 : ("0" ++ numStr).length = numStr.length + 1 := by
    have h2 : ("0" : String).length = 1 := rfl
    simp [String.length_append, h2]
    omega
  omega

/-- Function `zerofill(num, len)` from the source: stringify `num` and left-pad with
zeros.  The JS optional parameter `len` (defaulting to the module variable
`imgStrLen`) is embedded as an explicit `Option Nat` argument together with
the ambient `imgStrLen` value. -/
def zerofill (imgStrLen : Nat) (num : Int) (len : Option Nat) : String :=
  zerofillAux (toString num) (match len with | none => imgStrLen | some v => v)

/-- Spec-side description of `zerofill` for comparison: left-pad the decimal
representation with '0' characters up to the requested width. -/
def zerofillSpec (num : Int) (len : Nat) : String :=
  ⟨List.replicate (len - (toString num).length) '0' ++ (toString num).data⟩

/-- Source line 173: `imgStrLen = String(settings.numImages).length`. -/
def imgStrLenOf (numImages : Int) : Nat :=
  (toString numImages).length

/-! ## calculateCurrent (source lines 353-356) -/

/-- Function `calculateCurrent()`: frame index from scroll position.
`currentPercent = scrollTop / (documentHeight - windowHeight)` and the result
is `Math.max(1, Math.ceil(numImages * currentPercent))`. -/
def calculateCurrent (numImages : Int) (scrollTop docHeight winHeight : ℚ) : Int :=
  max 1 (Int.ceil ((numImages : ℚ) * (scrollTop / (docHeight - winHeight))))

/-! ## Data model -/

/-- The settings record (defaults object merged with user options). -/
structure Settings where
  imgFormat : String
  upgradeHighRes : Bool
  imgDirBig : String
  buffer : Int
  preload : Bool
  numImages : Int
  imgDir : String
  imgName : String
deriving DecidableEq

/-- One `<img>` element of the display surface: its `src` attribute, its
`data-frame` tag, whether it carries `data-upgraded="1"`, and whether it is
currently shown. -/
structure Elem where
  src : String
  frame : Int
  upgraded : Bool
  visible : Bool
deriving DecidableEq

/-- Function `generateImg(id, highres)` (source lines 296-307): build the image element
for frame `id`.  The high-res variant is used when `highres === true` or the
frame is recorded in `preloadedBig`; it is tagged `data-upgraded="1"`.  Both
variants start hidden (`style="display: none;"`). -/
def generateImg (st : Settings) (imgStrLen : Nat) (preloadedBig : List Int)
    (id : Int) (highres : Bool) : Elem :=
  if highres = true ∨ preloadedBig.contains id then
    { src := st.imgDirBig ++ st.imgName ++ zerofill imgStrLen id none ++ st.imgFormat
      frame := id, upgraded := true, visible := false }
  else
    { src := st.imgDir ++ st.imgName ++ zerofill imgStrLen id none ++ st.imgFormat
      frame := id, upgraded := false, visible := false }

/-- The module-level mutable state of the plugin (source lines 100-130),
plus the DOM surrogate and the observation logs described in the header. -/
structure State where
  settings : Settings
  currentImg : Int
  imgStrLen : Nat
  animating : Bool
  buffering : Bool
  preloaded : List Int
  allPreloaded : Bool
  preloadedBig : List Int
  lastCurrentImg : Int
  attached : List Elem
  staged : Option Elem
  fetchLog : List (Int × Nat)
  shownLog : List Int
deriving DecidableEq

/-! ## Preload bookkeeping (source lines 235-290) -/

/-- Function `markAsPreloaded(frame)` (source lines 263-268): push `frame` onto
`preloaded` unless it is already a member. -/
def markAsPreloaded (frame : Int) (s : State) : State :=
  if s.preloaded.contains frame then s
  else { s with preloaded := s.preloaded ++ [frame] }

/-- Function `markBigAsPreloaded(frame)` (source lines 271-276). -/
def markBigAsPreloaded (frame : Int) (s : State) : State :=
  if s.preloadedBig.contains frame then s
  else { s with preloadedBig := s.preloadedBig ++ [frame] }

/-- Callback `onImagePreloaded(id, type)` (source lines 282-290).  The trailing
`setTimeout(preload, 5)` is a deferred tick, modelled as a later
`Op.preloadTimer` step. -/
def onImagePreloaded (id : Int) (type : Nat) (s : State) : State :=
  if type = 1 then markAsPreloaded id s
  else if type = 2 then markBigAsPreloaded id s
  else s

/-- The candidate frames `1 .. numImages` of the `for` loop in `preloadNext`. -/
def frameRange (numImages : Int) : List Int :=
  (List.range numImages.toNat).map (fun (k : Nat) => ((k : Int) + 1))

/-- Function `preloadNext(type)` (source lines 235-257): when neither animating nor
buffering, scan frames `1..numImages` for the first one not yet preloaded at
the requested tier; `image.onLoad = onImagePreloaded(i, type)` *invokes* the
marker immediately (a source quirk: the call's result is assigned), then the
`image.src = ...` assignment issues the fetch, recorded in `fetchLog`. -/
def preloadNext (type : Nat) (s : State) : State :=
  if s.animating = false ∧ s.buffering = false then
    match (frameRange s.settings.numImages).find? (fun i =>
        (type == 1 && !s.preloaded.contains i) ||
        (type == 2 && !s.preloadedBig.contains i)) with
    | some i =>
        let s1 := onImagePreloaded i type s
        { s1 with fetchLog := s1.fetchLog ++ [(i, type)] }
    | none => s
  else s

/-- Function `preload()` (source lines 208-228).  The single recursive re-entry (after
setting `allPreloaded := true` the source calls `preload()` again) is resolved
inline: on re-entry the first two branches are no longer taken, so control
continues with the high-res branch.  The `onPreloaded` user callback firing is
recorded by the `allPreloaded` flag flip itself. -/
def preload (s : State) : State :=
  if s.settings.preload = true then
    if (s.preloaded.length : Int) < s.settings.numImages then
      preloadNext 1 s
    else if (s.preloaded.length : Int) ≥ s.settings.numImages ∧ s.allPreloaded = false then
      let s1 : State := { s with allPreloaded := true }
      if (s1.preloadedBig.length : Int) < s1.settings.numImages then preloadNext 2 s1
      else s1
    else if s.allPreloaded = true ∧ (s.preloadedBig.length : Int) < s.settings.numImages then
      preloadNext 2 s
    else s
  else s

/-! ## Buffer maintenance (source lines 446-488) -/

/-- The jQuery test `$this.children('img[data-frame="f"]').length == 0`,
negated: is an element tagged with frame `f` attached? -/
def attachedHasFrame (attached : List Elem) (f : Int) : Bool :=
  attached.any (fun e => e.frame == f)

/-- The pruning pass of `bufferFromFrame` (source lines 450-456): remove
attached images whose frame index lies outside `[frame - buffer, frame + buffer]`. -/
def prunedAttached (frame : Int) (s : State) : List Elem :=
  s.attached.filter (fun e =>
    !(e.frame < frame - s.settings.buffer || e.frame > frame + s.settings.buffer))

/-- The loop offsets `for (var i = -settings.buffer; i < settings.buffer; i++)`
of the buffer fill pass: the half-open range `[-buffer, buffer)`. -/
def bufferOffsets (buffer : Int) : List Int :=
  (List.range (2 * buffer).toNat).map (fun (k : Nat) => ((k : Int) - buffer))

/-- One iteration of the fill loop (source lines 466-483): if frame
`frame + i` is not in the DOM and is an actual frame of the clip
(`> 0` and `≤ numImages`), append its (hidden, low-res) element and mark it
preloaded. -/
def bufferFillStep (frame : Int) (s : State) (i : Int) : State :=
  let frameToBuffer := frame + i
  if attachedHasFrame s.attached frameToBuffer = false ∧
      frameToBuffer > 0 ∧ frameToBuffer ≤ s.settings.numImages then
    let appended : List Elem :=
      s.attached ++ [generateImg s.settings s.imgStrLen s.preloadedBig frameToBuffer false]
    markAsPreloaded frameToBuffer { s with attached := appended }
  else s

/-- The complete fill loop over the offsets. -/
def bufferFill (frame : Int) (offsets : List Int) (s : State) : State :=
  offsets.foldl (bufferFillStep frame) s

/-- Function `bufferFromFrame(frame)` (source lines 446-488): prune out-of-window
images; if the attached count is then below `buffer * 2`, run the fill loop;
finally clear the buffering flag and invoke `preload()`. -/
def bufferFromFrame (frame : Int) (s : State) : State :=
  let s1 : State := { s with attached := prunedAttached frame s }
  let s2 := if (s1.attached.length : Int) < s1.settings.buffer * 2 then
      bufferFill frame (bufferOffsets s1.settings.buffer) s1
    else s1
  preload { s2 with buffering := false }

/-! ## Frame display (source lines 398-436) -/

/-- Function `showFrame(frame)` (source lines 422-436): invoke the `onShowFrame`
callback (recorded in `shownLog`), hide all children, show the element(s)
tagged with `frame`, mark the frame preloaded, and run buffer maintenance. -/
def showFrame (frame : Int) (s : State) : State :=
  let s1 : State := { s with shownLog := s.shownLog ++ [frame] }
  let hidden : List Elem := s1.attached.map (fun e => { e with visible := false })
  let s2 : State := { s1 with attached := hidden }
  let shown : List Elem :=
    s2.attached.map (fun e => if e.frame == frame then { e with visible := true } else e)
  let s3 : State := { s2 with attached := shown }
  bufferFromFrame frame (markAsPreloaded frame s3)

/-- Function `showFrameWhenReady(frame)` (source lines 398-416): if the frame is not in
the DOM, set the buffering flag, append its element and wait for
`imagesLoaded` (modelled as completing immediately) before calling
`showFrame`; otherwise call `showFrame` directly. -/
def showFrameWhenReady (frame : Int) (s : State) : State :=
  if attachedHasFrame s.attached frame then showFrame frame s
  else
    let appended : List Elem :=
      s.attached ++ [generateImg s.settings s.imgStrLen s.preloadedBig frame false]
    showFrame frame { s with buffering := true, attached := appended }

/-! ## High-res upgrade (source lines 495-519) -/

/-- The `$frame.data('upgraded') != '1'` test, negated: jQuery `.data` reads
the first matching element; an empty selection yields `undefined` (≠ '1'). -/
def elemTagged (s : State) (frame : Int) : Bool :=
  match s.attached.find? (fun e => e.frame == frame) with
  | some e => e.upgraded
  | none => false

/-- The synchronous part of `upgradeFrame(frame)` (source lines 495-519):
no-op when the attached element for `frame` is already tagged upgraded;
otherwise empty the staging wrapper (cancel-by-replacement) and stage the
high-res element there to load. -/
def upgradeFrame (frame : Int) (s : State) : State :=
  if elemTagged s frame then s
  else
    let highResFrame : Elem := generateImg s.settings s.imgStrLen s.preloadedBig frame true
    { s with staged := some highResFrame }

/-- Replace the first element tagged with frame `f` by `x` (models
`$frame.after(...)` followed by `$frame.remove()`); when no element matches,
the list is unchanged. -/
def replaceFrame (l : List Elem) (f : Int) (x : Elem) : List Elem :=
  match l with
  | [] => []
  | e :: rest => if e.frame == f then x :: rest else e :: replaceFrame rest f x

/-- The `imagesLoaded` completion callback of `upgradeFrame` (source lines
508-517): splice the staged high-res element after the low-res one, show it,
remove the low-res element, empty the wrapper and mark the frame high-res
preloaded.  When the wrapper was emptied in the meantime (stale callback),
the splice does nothing but `markBigAsPreloaded` still runs -- here the
`none` case conservatively leaves the state unchanged, matching an emptied
wrapper producing an empty html string to insert. -/
def upgradeLoaded (frame : Int) (s : State) : State :=
  match s.staged with
  | none => s
  | some hi =>
      let spliced : List Elem := replaceFrame s.attached frame { hi with visible := true }
      markBigAsPreloaded frame { s with attached := spliced, staged := none }

/-! ## Scroll state machine (source lines 315-345, 379-391) -/

/-- Function `checkForScroll()` (source lines 332-345): when the frame recorded at
scroll-event time still equals the current frame, scrolling has settled:
stop animating, optionally upgrade the current frame, and resume preloading. -/
def checkForScroll (s : State) : State :=
  if s.lastCurrentImg = s.currentImg then
    let s1 : State := { s with animating := false }
    let s2 := if s1.settings.upgradeHighRes = true then upgradeFrame s1.currentImg s1 else s1
    preload s2
  else s

/-- One tick of `animate()` (source lines 379-391): when animating, recompute
the target frame; if it changed, commit it and show it, else stop animating.
The trailing `requestAnimationFrame(animate)` schedules the next tick
(a separate `Op.tick`). -/
def animateStep (scrollTop docHeight winHeight : ℚ) (s : State) : State :=
  if s.animating = true then
    let cur := calculateCurrent s.settings.numImages scrollTop docHeight winHeight
    if cur ≠ s.currentImg then
      showFrameWhenReady cur { s with currentImg := cur }
    else { s with animating := false }
  else s

/-- The `scroll` handler (source lines 315-326): start the animation loop if
idle, then record the current frame for settle detection (the debounce timer
reset itself is not part of the state). -/
def scrollStep (scrollTop docHeight winHeight : ℚ) (s : State) : State :=
  let s1 := if s.animating = false then
      animateStep scrollTop docHeight winHeight { s with animating := true }
    else s
  { s1 with lastCurrentImg := s1.currentImg }

/-! ## Initialization (source lines 136-199) -/

/-- The user-supplied options object; absent keys are `none`. -/
structure Options where
  numImages : Option Int
  imgDir : Option String
  imgName : Option String
  imgFormat : Option String
  upgradeHighRes : Option Bool
  imgDirBig : Option String
  buffer : Option Int
  preload : Option Bool
deriving DecidableEq

/-- JS truthiness of an optional number: absent and `0` are falsy. -/
def truthyInt : Option Int → Bool
  | none => false
  | some v => v != 0

/-- JS truthiness of an optional string: absent and `""` are falsy. -/
def truthyStr : Option String → Bool
  | none => false
  | some v => v != ""

/-- JS truthiness of an optional boolean. -/
def truthyBool : Option Bool → Bool
  | none => false
  | some b => b

/-- Merge step `$.extend(defaults, options)` (source line 166): supplied keys override
the defaults of source lines 58-83; the required keys have no default. -/
def mergeSettings (o : Options) : Settings :=
  { imgFormat := o.imgFormat.getD ".jpg"
    upgradeHighRes := o.upgradeHighRes.getD false
    imgDirBig := o.imgDirBig.getD ""
    buffer := o.buffer.getD 10
    preload := o.preload.getD false
    numImages := o.numImages.getD 0
    imgDir := o.imgDir.getD ""
    imgName := o.imgName.getD "" }

/-- Function `init(options)` (source lines 136-199): validate the options (throwing on
the first failure, before any state is written), merge settings, compute the
pad width and the initial frame, show it, optionally prepare the high-res
upgrade staging area and upgrade the initial frame, and optionally start
preloading.  The result is the new module state paired with the thrown error
message, if any; on a throw the module state is the unchanged input.
(The source stores the host-element reference `$this = this` before
validating; that DOM handle is not part of the modelled state.) -/
def init (o : Options) (hasImagesLoaded : Bool)
    (scrollTop docHeight winHeight : ℚ) (s : State) : State × Option String :=
  if truthyInt o.numImages = false then
    (s, some "frameAnimation: Required setting numImages not supplied")
  else if truthyStr o.imgDir = false then
    (s, some "frameAnimation: Required setting imgDir not supplied")
  else if truthyStr o.imgName = false then
    (s, some "frameAnimation: Required setting imgName not supplied")
  else if o.upgradeHighRes = some true ∧ truthyStr o.imgDirBig = false then
    (s, some "frameAnimation: Setting upgradeHighRes set to true, but no imgDirBig supplied")
  else if hasImagesLoaded = false then
    (s, some "frameAnimation: Required plugin jquery.imagesloaded not found")
  else
    let st := mergeSettings o
    let cur := calculateCurrent st.numImages scrollTop docHeight winHeight
    let s1 : State := { s with settings := st, imgStrLen := imgStrLenOf st.numImages }
    let s2 : State := { s1 with currentImg := cur }
    let s3 := showFrameWhenReady s2.currentImg s2
    let s4 := if truthyBool o.upgradeHighRes then upgradeFrame s3.currentImg s3 else s3
    let s5 := if st.preload = true then preload s4 else s4
    (s5, none)

/-! ## Event steps -/

/-- The externally triggered operations of the plugin: scroll events,
animation ticks, the settle debounce timer, the deferred preload timer, the
two public methods, buffer maintenance and the high-res load completion. -/
inductive Op where
  | scrollEv (scrollTop docHeight winHeight : ℚ)
  | tick (scrollTop docHeight winHeight : ℚ)
  | settleTimer
  | preloadTimer
  | showReq (frame : Int)
  | bufferReq (frame : Int)
  | upgradeReq (frame : Int)
  | upgradeLoadDone (frame : Int)

/-- Dispatch one operation. -/
def step (s : State) (op : Op) : State :=
  match op with
  | .scrollEv a b c => scrollStep a b c s
  | .tick a b c => animateStep a b c s
  | .settleTimer => checkForScroll s
  | .preloadTimer => preload s
  | .showReq f => showFrameWhenReady f s
  | .bufferReq f => bufferFromFrame f s
  | .upgradeReq f => upgradeFrame f s
  | .upgradeLoadDone f => upgradeLoaded f s

/-- Run a sequence of operations. -/
def steps (s : State) (ops : List Op) : State :=
  ops.foldl step s

/-- The preload bookkeeping list of a resolution tier (1 = low-res, 2 = high-res). -/
def tierList (t : Nat) (s : State) : List Int :=
  if t = 1 then s.preloaded else if t = 2 then s.preloadedBig else []

/-! ## Concrete example fixtures -/

/-- A small settings record for concrete evaluations: 5 frames, buffer 1. -/
def exSettings : Settings :=
  { imgFormat := ".jpg", upgradeHighRes := false, imgDirBig := "", buffer := 1
    preload := false, numImages := 5, imgDir := "d/", imgName := "f" }

/-- The element for frame 3 under `exSettings` (the value of
`generateImg exSettings 1 [] 3 false`, written literally so that concrete
evaluation never has to unfold the padding loop). -/
def exElem : Elem :=
  { src := "d/f3.jpg", frame := 3, upgraded := false, visible := true }

/-- A state in which exactly frame 3 is attached (just shown). -/
def exState : State :=
  { settings := exSettings, currentImg := 3, imgStrLen := 1, animating := false
    buffering := true, preloaded := [3], allPreloaded := false, preloadedBig := []
    lastCurrentImg := 3
    attached := [exElem]
    staged := none, fetchLog := [], shownLog := [] }

/-! ## Padding loop characterization -/

/-- The while loop of `zerofill` left-pads with '0' up to the requested width. -/
theorem zerofillAux_eq_pad (len : Nat) :
    ∀ (n : Nat) (s : String), len - s.length = n →
      zerofillAux s len = ⟨List.replicate (len - s.length) '0' ++ s.data⟩ := by
  intro n
  induction n with
  | zero =>
    intro s hs
    have hnot : ¬ s.length < len := by omega
    rw [zerofillAux, dif_neg hnot, hs]
    simp
  | succ n ih =>
    intro s hs
    have hlt : s.length < len := by omega
    have hlen : ("0" ++ s).length = s.length + 1 := by
      have h2 : ("0" : String).length = 1 := rfl
      simp [String.length_append, h2]
      omega
    rw [zerofillAux, dif_pos hlt, ih ("0" ++ s) (by omega)]
    apply String.ext
    have hdata : ("0" ++ s).data = '0' :: s.data := by
      have h3 : ("0" : String).data = ['0'] := rfl
      simp [String.data_append, h3]
    rw [hdata, hlen]
    have hrep : len - s.length = (len - (s.length + 1)) + 1 := by omega
    rw [hrep, List.replicate_succ']
    simp

/-- Function `zerofill` agrees with the left-pad description, for every width. -/
theorem zerofill_eq_spec (isl : Nat) (num : Int) (w : Nat) :
    zerofill isl num (some w) = zerofillSpec num w ∧
    zerofill isl num none = zerofillSpec num isl := by
  constructor
  · exact zerofillAux_eq_pad w _ (toString num) rfl
  · exact zerofillAux_eq_pad isl _ (toString num) rfl

/-! ## Generic fold preservation -/

/-- A reflexive-transitive step-preserved relation holds across a fold. -/
theorem foldl_pres {α σ : Type} (g : σ → α → σ) (P : σ → σ → Prop)
    (hrefl : ∀ s, P s s) (htrans : ∀ a b c, P a b → P b c → P a c)
    (hstep : ∀ s x, P s (g s x)) : ∀ (l : List α) (s : σ), P s (l.foldl g s) := by
  intro l
  induction l with
  | nil => intro s; exact hrefl s
  | cons x rest ih => intro s; exact htrans _ _ _ (hstep s x) (ih (g s x))

/-! ## Projection lemmas for the state transformers -/

@[simp] theorem generateImg_frame (st : Settings) (isl : Nat) (pb : List Int)
    (id : Int) (hr : Bool) : (generateImg st isl pb id hr).frame = id := by
  unfold generateImg; split <;> rfl

@[simp] theorem generateImg_visible (st : Settings) (isl : Nat) (pb : List Int)
    (id : Int) (hr : Bool) : (generateImg st isl pb id hr).visible = false := by
  unfold generateImg; split <;> rfl

@[simp] theorem generateImg_true_upgraded (st : Settings) (isl : Nat) (pb : List Int)
    (id : Int) : (generateImg st isl pb id true).upgraded = true := by
  simp [generateImg]

@[simp] theorem markAsPreloaded_attached (f : Int) (s : State) :
    (markAsPreloaded f s).attached = s.attached := by
  unfold markAsPreloaded; split <;> rfl

@[simp] theorem markAsPreloaded_settings (f : Int) (s : State) :
    (markAsPreloaded f s).settings = s.settings := by
  unfold markAsPreloaded; split <;> rfl

@[simp] theorem markAsPreloaded_imgStrLen (f : Int) (s : State) :
    (markAsPreloaded f s).imgStrLen = s.imgStrLen := by
  unfold markAsPreloaded; split <;> rfl

@[simp] theorem markAsPreloaded_currentImg (f : Int) (s : State) :
    (markAsPreloaded f s).currentImg = s.currentImg := by
  unfold markAsPreloaded; split <;> rfl

@[simp] theorem markAsPreloaded_animating (f : Int) (s : State) :
    (markAsPreloaded f s).animating = s.animating := by
  unfold markAsPreloaded; split <;> rfl

@[simp] theorem markAsPreloaded_buffering (f : Int) (s : State) :
    (markAsPreloaded f s).buffering = s.buffering := by
  unfold markAsPreloaded; split <;> rfl

@[simp] theorem markAsPreloaded_staged (f : Int) (s : State) :
    (markAsPreloaded f s).staged = s.staged := by
  unfold markAsPreloaded; split <;> rfl

@[simp] theorem markAsPreloaded_fetchLog (f : Int) (s : State) :
    (markAsPreloaded f s).fetchLog = s.fetchLog := by
  unfold markAsPreloaded; split <;> rfl

@[simp] theorem markAsPreloaded_shownLog (f : Int) (s : State) :
    (markAsPreloaded f s).shownLog = s.shownLog := by
  unfold markAsPreloaded; split <;> rfl

@[simp] theorem markAsPreloaded_preloadedBig (f : Int) (s : State) :
    (markAsPreloaded f s).preloadedBig = s.preloadedBig := by
  unfold markAsPreloaded; split <;> rfl

@[simp] theorem markAsPreloaded_lastCurrentImg (f : Int) (s : State) :
    (markAsPreloaded f s).lastCurrentImg = s.lastCurrentImg := by
  unfold markAsPreloaded; split <;> rfl

@[simp] theorem markAsPreloaded_allPreloaded (f : Int) (s : State) :
    (markAsPreloaded f s).allPreloaded = s.allPreloaded := by
  unfold markAsPreloaded; split <;> rfl

theorem mem_markAsPreloaded_self (f : Int) (s : State) :
    f ∈ (markAsPreloaded f s).preloaded := by
  unfold markAsPreloaded; split
  · next h => exact List.mem_of_elem_eq_true h
  · simp

theorem mem_markAsPreloaded_mono (f g : Int) (s : State) (h : g ∈ s.preloaded) :
    g ∈ (markAsPreloaded f s).preloaded := by
  unfold markAsPreloaded; split
  · exact h
  · simp [h]

theorem markAsPreloaded_preloaded_sub (f g : Int) (s : State)
    (h : g ∈ (markAsPreloaded f s).preloaded) : g ∈ s.preloaded ∨ g = f := by
  revert h; unfold markAsPreloaded; split
  · exact fun h => Or.inl h
  · intro h; simpa using h

@[simp] theorem markBigAsPreloaded_attached (f : Int) (s : State) :
    (markBigAsPreloaded f s).attached = s.attached := by
  unfold markBigAsPreloaded; split <;> rfl

@[simp] theorem markBigAsPreloaded_settings (f : Int) (s : State) :
    (markBigAsPreloaded f s).settings = s.settings := by
  unfold markBigAsPreloaded; split <;> rfl

@[simp] theorem markBigAsPreloaded_imgStrLen (f : Int) (s : State) :
    (markBigAsPreloaded f s).imgStrLen = s.imgStrLen := by
  unfold markBigAsPreloaded; split <;> rfl

@[simp] theorem markBigAsPreloaded_currentImg (f : Int) (s : State) :
    (markBigAsPreloaded f s).currentImg = s.currentImg := by
  unfold markBigAsPreloaded; split <;> rfl

@[simp] theorem markBigAsPreloaded_animating (f : Int) (s : State) :
    (markBigAsPreloaded f s).animating = s.animating := by
  unfold markBigAsPreloaded; split <;> rfl

@[simp] theorem markBigAsPreloaded_buffering (f : Int) (s : State) :
    (markBigAsPreloaded f s).buffering = s.buffering := by
  unfold markBigAsPreloaded; split <;> rfl

@[simp] theorem markBigAsPreloaded_staged (f : Int) (s : State) :
    (markBigAsPreloaded f s).staged = s.staged := by
  unfold markBigAsPreloaded; split <;> rfl

@[simp] theorem markBigAsPreloaded_fetchLog (f : Int) (s : State) :
    (markBigAsPreloaded f s).fetchLog = s.fetchLog := by
  unfold markBigAsPreloaded; split <;> rfl

@[simp] theorem markBigAsPreloaded_shownLog (f : Int) (s : State) :
    (markBigAsPreloaded f s).shownLog = s.shownLog := by
  unfold markBigAsPreloaded; split <;> rfl

@[simp] theorem markBigAsPreloaded_preloaded (f : Int) (s : State) :
    (markBigAsPreloaded f s).preloaded = s.preloaded := by
  unfold markBigAsPreloaded; split <;> rfl

@[simp] theorem markBigAsPreloaded_lastCurrentImg (f : Int) (s : State) :
    (markBigAsPreloaded f s).lastCurrentImg = s.lastCurrentImg := by
  unfold markBigAsPreloaded; split <;> rfl

@[simp] theorem markBigAsPreloaded_allPreloaded (f : Int) (s : State) :
    (markBigAsPreloaded f s).allPreloaded = s.allPreloaded := by
  unfold markBigAsPreloaded; split <;> rfl

theorem mem_markBigAsPreloaded_mono (f g : Int) (s : State) (h : g ∈ s.preloadedBig) :
    g ∈ (markBigAsPreloaded f s).preloadedBig := by
  unfold markBigAsPreloaded; split
  · exact h
  · simp [h]

@[simp] theorem onImagePreloaded_attached (i : Int) (t : Nat) (s : State) :
    (onImagePreloaded i t s).attached = s.attached := by
  unfold onImagePreloaded; repeat' split
  all_goals simp

@[simp] theorem onImagePreloaded_settings (i : Int) (t : Nat) (s : State) :
    (onImagePreloaded i t s).settings = s.settings := by
  unfold onImagePreloaded; repeat' split
  all_goals simp

@[simp] theorem onImagePreloaded_imgStrLen (i : Int) (t : Nat) (s : State) :
    (onImagePreloaded i t s).imgStrLen = s.imgStrLen := by
  unfold onImagePreloaded; repeat' split
  all_goals simp

@[simp] theorem onImagePreloaded_currentImg (i : Int) (t : Nat) (s : State) :
    (onImagePreloaded i t s).currentImg = s.currentImg := by
  unfold onImagePreloaded; repeat' split
  all_goals simp

@[simp] theorem onImagePreloaded_animating (i : Int) (t : Nat) (s : State) :
    (onImagePreloaded i t s).animating = s.animating := by
  unfold onImagePreloaded; repeat' split
  all_goals simp

@[simp] theorem onImagePreloaded_buffering (i : Int) (t : Nat) (s : State) :
    (onImagePreloaded i t s).buffering = s.buffering := by
  unfold onImagePreloaded; repeat' split
  all_goals simp

@[simp] theorem onImagePreloaded_staged (i : Int) (t : Nat) (s : State) :
    (onImagePreloaded i t s).staged = s.staged := by
  unfold onImagePreloaded; repeat' split
  all_goals simp

@[simp] theorem onImagePreloaded_fetchLog (i : Int) (t : Nat) (s : State) :
    (onImagePreloaded i t s).fetchLog = s.fetchLog := by
  unfold onImagePreloaded; repeat' split
  all_goals simp

@[simp] theorem onImagePreloaded_shownLog (i : Int) (t : Nat) (s : State) :
    (onImagePreloaded i t s).shownLog = s.shownLog := by
  unfold onImagePreloaded; repeat' split
  all_goals simp

@[simp] theorem onImagePreloaded_lastCurrentImg (i : Int) (t : Nat) (s : State) :
    (onImagePreloaded i t s).lastCurrentImg = s.lastCurrentImg := by
  unfold onImagePreloaded; repeat' split
  all_goals simp

@[simp] theorem onImagePreloaded_allPreloaded (i : Int) (t : Nat) (s : State) :
    (onImagePreloaded i t s).allPreloaded = s.allPreloaded := by
  unfold onImagePreloaded; repeat' split
  all_goals simp

@[simp] theorem preloadNext_attached (t : Nat) (s : State) :
    (preloadNext t s).attached = s.attached := by
  unfold preloadNext; repeat' split
  all_goals simp

@[simp] theorem preloadNext_settings (t : Nat) (s : State) :
    (preloadNext t s).settings = s.settings := by
  unfold preloadNext; repeat' split
  all_goals simp

@[simp] theorem preloadNext_imgStrLen (t : Nat) (s : State) :
    (preloadNext t s).imgStrLen = s.imgStrLen := by
  unfold preloadNext; repeat' split
  all_goals simp

@[simp] theorem preloadNext_currentImg (t : Nat) (s : State) :
    (preloadNext t s).currentImg = s.currentImg := by
  unfold preloadNext; repeat' split
  all_goals simp

@[simp] theorem preloadNext_animating (t : Nat) (s : State) :
    (preloadNext t s).animating = s.animating := by
  unfold preloadNext; repeat' split
  all_goals simp

@[simp] theorem preloadNext_buffering (t : Nat) (s : State) :
    (preloadNext t s).buffering = s.buffering := by
  unfold preloadNext; repeat' split
  all_goals simp

@[simp] theorem preloadNext_staged (t : Nat) (s : State) :
    (preloadNext t s).staged = s.staged := by
  unfold preloadNext; repeat' split
  all_goals simp

@[simp] theorem preloadNext_shownLog (t : Nat) (s : State) :
    (preloadNext t s).shownLog = s.shownLog := by
  unfold preloadNext; repeat' split
  all_goals simp

@[simp] theorem preloadNext_lastCurrentImg (t : Nat) (s : State) :
    (preloadNext t s).lastCurrentImg = s.lastCurrentImg := by
  unfold preloadNext; repeat' split
  all_goals simp

@[simp] theorem preloadNext_allPreloaded (t : Nat) (s : State) :
    (preloadNext t s).allPreloaded = s.allPreloaded := by
  unfold preloadNext; repeat' split
  all_goals simp

@[simp] theorem preload_attached (s : State) :
    (preload s).attached = s.attached := by
  unfold preload; repeat' split
  all_goals simp [apply_ite]

@[simp] theorem preload_settings (s : State) :
    (preload s).settings = s.settings := by
  unfold preload; repeat' split
  all_goals simp [apply_ite]

@[simp] theorem preload_imgStrLen (s : State) :
    (preload s).imgStrLen = s.imgStrLen := by
  unfold preload; repeat' split
  all_goals simp [apply_ite]

@[simp] theorem preload_currentImg (s : State) :
    (preload s).currentImg = s.currentImg := by
  unfold preload; repeat' split
  all_goals simp [apply_ite]

@[simp] theorem preload_animating (s : State) :
    (preload s).animating = s.animating := by
  unfold preload; repeat' split
  all_goals simp [apply_ite]

@[simp] theorem preload_buffering (s : State) :
    (preload s).buffering = s.buffering := by
  unfold preload; repeat' split
  all_goals simp [apply_ite]

@[simp] theorem preload_staged (s : State) :
    (preload s).staged = s.staged := by
  unfold preload; repeat' split
  all_goals simp [apply_ite]

@[simp] theorem preload_shownLog (s : State) :
    (preload s).shownLog = s.shownLog := by
  unfold preload; repeat' split
  all_goals simp [apply_ite]

@[simp] theorem preload_lastCurrentImg (s : State) :
    (preload s).lastCurrentImg = s.lastCurrentImg := by
  unfold preload; repeat' split
  all_goals simp [apply_ite]

@[simp] theorem bufferFillStep_settings (f : Int) (s : State) (i : Int) :
    (bufferFillStep f s i).settings = s.settings := by
  unfold bufferFillStep; simp [apply_ite]

@[simp] theorem bufferFillStep_imgStrLen (f : Int) (s : State) (i : Int) :
    (bufferFillStep f s i).imgStrLen = s.imgStrLen := by
  unfold bufferFillStep; simp [apply_ite]

@[simp] theorem bufferFillStep_currentImg (f : Int) (s : State) (i : Int) :
    (bufferFillStep f s i).currentImg = s.currentImg := by
  unfold bufferFillStep; simp [apply_ite]

@[simp] theorem bufferFillStep_animating (f : Int) (s : State) (i : Int) :
    (bufferFillStep f s i).animating = s.animating := by
  unfold bufferFillStep; simp [apply_ite]

@[simp] theorem bufferFillStep_buffering (f : Int) (s : State) (i : Int) :
    (bufferFillStep f s i).buffering = s.buffering := by
  unfold bufferFillStep; simp [apply_ite]

@[simp] theorem bufferFillStep_staged (f : Int) (s : State) (i : Int) :
    (bufferFillStep f s i).staged = s.staged := by
  unfold bufferFillStep; simp [apply_ite]

@[simp] theorem bufferFillStep_fetchLog (f : Int) (s : State) (i : Int) :
    (bufferFillStep f s i).fetchLog = s.fetchLog := by
  unfold bufferFillStep; simp [apply_ite]

@[simp] theorem bufferFillStep_shownLog (f : Int) (s : State) (i : Int) :
    (bufferFillStep f s i).shownLog = s.shownLog := by
  unfold bufferFillStep; simp [apply_ite]

@[simp] theorem bufferFillStep_preloadedBig (f : Int) (s : State) (i : Int) :
    (bufferFillStep f s i).preloadedBig = s.preloadedBig := by
  unfold bufferFillStep; simp [apply_ite]

@[simp] theorem bufferFillStep_lastCurrentImg (f : Int) (s : State) (i : Int) :
    (bufferFillStep f s i).lastCurrentImg = s.lastCurrentImg := by
  unfold bufferFillStep; simp [apply_ite]

@[simp] theorem bufferFillStep_allPreloaded (f : Int) (s : State) (i : Int) :
    (bufferFillStep f s i).allPreloaded = s.allPreloaded := by
  unfold bufferFillStep; simp [apply_ite]

@[simp] theorem bufferFill_settings (f : Int) (offs : List Int) (s : State) :
    (bufferFill f offs s).settings = s.settings :=
  foldl_pres (bufferFillStep f) (fun a b => b.settings = a.settings) (fun _ => rfl)
    (fun _ _ _ h1 h2 => h2.trans h1) (fun a x => by simp) offs s

@[simp] theorem bufferFill_imgStrLen (f : Int) (offs : List Int) (s : State) :
    (bufferFill f offs s).imgStrLen = s.imgStrLen :=
  foldl_pres (bufferFillStep f) (fun a b => b.imgStrLen = a.imgStrLen) (fun _ => rfl)
    (fun _ _ _ h1 h2 => h2.trans h1) (fun a x => by simp) offs s

@[simp] theorem bufferFill_currentImg (f : Int) (offs : List Int) (s : State) :
    (bufferFill f offs s).currentImg = s.currentImg :=
  foldl_pres (bufferFillStep f) (fun a b => b.currentImg = a.currentImg) (fun _ => rfl)
    (fun _ _ _ h1 h2 => h2.trans h1) (fun a x => by simp) offs s

@[simp] theorem bufferFill_animating (f : Int) (offs : List Int) (s : State) :
    (bufferFill f offs s).animating = s.animating :=
  foldl_pres (bufferFillStep f) (fun a b => b.animating = a.animating) (fun _ => rfl)
    (fun _ _ _ h1 h2 => h2.trans h1) (fun a x => by simp) offs s

@[simp] theorem bufferFill_buffering (f : Int) (offs : List Int) (s : State) :
    (bufferFill f offs s).buffering = s.buffering :=
  foldl_pres (bufferFillStep f) (fun a b => b.buffering = a.buffering) (fun _ => rfl)
    (fun _ _ _ h1 h2 => h2.trans h1) (fun a x => by simp) offs s

@[simp] theorem bufferFill_staged (f : Int) (offs : List Int) (s : State) :
    (bufferFill f offs s).staged = s.staged :=
  foldl_pres (bufferFillStep f) (fun a b => b.staged = a.staged) (fun _ => rfl)
    (fun _ _ _ h1 h2 => h2.trans h1) (fun a x => by simp) offs s

@[simp] theorem bufferFill_fetchLog (f : Int) (offs : List Int) (s : State) :
    (bufferFill f offs s).fetchLog = s.fetchLog :=
  foldl_pres (bufferFillStep f) (fun a b => b.fetchLog = a.fetchLog) (fun _ => rfl)
    (fun _ _ _ h1 h2 => h2.trans h1) (fun a x => by simp) offs s

@[simp] theorem bufferFill_shownLog (f : Int) (offs : List Int) (s : State) :
    (bufferFill f offs s).shownLog = s.shownLog :=
  foldl_pres (bufferFillStep f) (fun a b => b.shownLog = a.shownLog) (fun _ => rfl)
    (fun _ _ _ h1 h2 => h2.trans h1) (fun a x => by simp) offs s

@[simp] theorem bufferFill_preloadedBig (f : Int) (offs : List Int) (s : State) :
    (bufferFill f offs s).preloadedBig = s.preloadedBig :=
  foldl_pres (bufferFillStep f) (fun a b => b.preloadedBig = a.preloadedBig) (fun _ => rfl)
    (fun _ _ _ h1 h2 => h2.trans h1) (fun a x => by simp) offs s

@[simp] theorem bufferFill_lastCurrentImg (f : Int) (offs : List Int) (s : State) :
    (bufferFill f offs s).lastCurrentImg = s.lastCurrentImg :=
  foldl_pres (bufferFillStep f) (fun a b => b.lastCurrentImg = a.lastCurrentImg) (fun _ => rfl)
    (fun _ _ _ h1 h2 => h2.trans h1) (fun a x => by simp) offs s

@[simp] theorem bufferFill_allPreloaded (f : Int) (offs : List Int) (s : State) :
    (bufferFill f offs s).allPreloaded = s.allPreloaded :=
  foldl_pres (bufferFillStep f) (fun a b => b.allPreloaded = a.allPreloaded) (fun _ => rfl)
    (fun _ _ _ h1 h2 => h2.trans h1) (fun a x => by simp) offs s

@[simp] theorem bufferFromFrame_settings (f : Int) (s : State) :
    (bufferFromFrame f s).settings = s.settings := by
  unfold bufferFromFrame; simp [apply_ite]

@[simp] theorem bufferFromFrame_imgStrLen (f : Int) (s : State) :
    (bufferFromFrame f s).imgStrLen = s.imgStrLen := by
  unfold bufferFromFrame; simp [apply_ite]

@[simp] theorem bufferFromFrame_currentImg (f : Int) (s : State) :
    (bufferFromFrame f s).currentImg = s.currentImg := by
  unfold bufferFromFrame; simp [apply_ite]

@[simp] theorem bufferFromFrame_animating (f : Int) (s : State) :
    (bufferFromFrame f s).animating = s.animating := by
  unfold bufferFromFrame; simp [apply_ite]

@[simp] theorem bufferFromFrame_buffering (f : Int) (s : State) :
    (bufferFromFrame f s).buffering = false := by
  unfold bufferFromFrame; simp [apply_ite]

@[simp] theorem bufferFromFrame_staged (f : Int) (s : State) :
    (bufferFromFrame f s).staged = s.staged := by
  unfold bufferFromFrame; simp [apply_ite]

@[simp] theorem bufferFromFrame_shownLog (f : Int) (s : State) :
    (bufferFromFrame f s).shownLog = s.shownLog := by
  unfold bufferFromFrame; simp [apply_ite]

@[simp] theorem bufferFromFrame_lastCurrentImg (f : Int) (s : State) :
    (bufferFromFrame f s).lastCurrentImg = s.lastCurrentImg := by
  unfold bufferFromFrame; simp [apply_ite]

@[simp] theorem showFrame_settings (f : Int) (s : State) :
    (showFrame f s).settings = s.settings := by
  unfold showFrame; simp

@[simp] theorem showFrame_imgStrLen (f : Int) (s : State) :
    (showFrame f s).imgStrLen = s.imgStrLen := by
  unfold showFrame; simp

@[simp] theorem showFrame_currentImg (f : Int) (s : State) :
    (showFrame f s).currentImg = s.currentImg := by
  unfold showFrame; simp

@[simp] theorem showFrame_animating (f : Int) (s : State) :
    (showFrame f s).animating = s.animating := by
  unfold showFrame; simp

@[simp] theorem showFrame_buffering (f : Int) (s : State) :
    (showFrame f s).buffering = false := by
  unfold showFrame; simp

@[simp] theorem showFrame_staged (f : Int) (s : State) :
    (showFrame f s).staged = s.staged := by
  unfold showFrame; simp

@[simp] theorem showFrame_shownLog (f : Int) (s : State) :
    (showFrame f s).shownLog = s.shownLog ++ [f] := by
  unfold showFrame; simp

@[simp] theorem showFrame_lastCurrentImg (f : Int) (s : State) :
    (showFrame f s).lastCurrentImg = s.lastCurrentImg := by
  unfold showFrame; simp

@[simp] theorem showFrameWhenReady_settings (f : Int) (s : State) :
    (showFrameWhenReady f s).settings = s.settings := by
  unfold showFrameWhenReady; simp [apply_ite]

@[simp] theorem showFrameWhenReady_imgStrLen (f : Int) (s : State) :
    (showFrameWhenReady f s).imgStrLen = s.imgStrLen := by
  unfold showFrameWhenReady; simp [apply_ite]

@[simp] theorem showFrameWhenReady_currentImg (f : Int) (s : State) :
    (showFrameWhenReady f s).currentImg = s.currentImg := by
  unfold showFrameWhenReady; simp [apply_ite]

@[simp] theorem showFrameWhenReady_animating (f : Int) (s : State) :
    (showFrameWhenReady f s).animating = s.animating := by
  unfold showFrameWhenReady; simp [apply_ite]

@[simp] theorem showFrameWhenReady_buffering (f : Int) (s : State) :
    (showFrameWhenReady f s).buffering = false := by
  unfold showFrameWhenReady; simp [apply_ite]

@[simp] theorem showFrameWhenReady_staged (f : Int) (s : State) :
    (showFrameWhenReady f s).staged = s.staged := by
  unfold showFrameWhenReady; simp [apply_ite]

@[simp] theorem showFrameWhenReady_shownLog (f : Int) (s : State) :
    (showFrameWhenReady f s).shownLog = s.shownLog ++ [f] := by
  unfold showFrameWhenReady; simp [apply_ite]

@[simp] theorem showFrameWhenReady_lastCurrentImg (f : Int) (s : State) :
    (showFrameWhenReady f s).lastCurrentImg = s.lastCurrentImg := by
  unfold showFrameWhenReady; simp [apply_ite]

@[simp] theorem upgradeFrame_attached (f : Int) (s : State) :
    (upgradeFrame f s).attached = s.attached := by
  unfold upgradeFrame; simp [apply_ite]

@[simp] theorem upgradeFrame_settings (f : Int) (s : State) :
    (upgradeFrame f s).settings = s.settings := by
  unfold upgradeFrame; simp [apply_ite]

@[simp] theorem upgradeFrame_imgStrLen (f : Int) (s : State) :
    (upgradeFrame f s).imgStrLen = s.imgStrLen := by
  unfold upgradeFrame; simp [apply_ite]

@[simp] theorem upgradeFrame_currentImg (f : Int) (s : State) :
    (upgradeFrame f s).currentImg = s.currentImg := by
  unfold upgradeFrame; simp [apply_ite]

@[simp] theorem upgradeFrame_animating (f : Int) (s : State) :
    (upgradeFrame f s).animating = s.animating := by
  unfold upgradeFrame; simp [apply_ite]

@[simp] theorem upgradeFrame_buffering (f : Int) (s : State) :
    (upgradeFrame f s).buffering = s.buffering := by
  unfold upgradeFrame; simp [apply_ite]

@[simp] theorem upgradeFrame_preloaded (f : Int) (s : State) :
    (upgradeFrame f s).preloaded = s.preloaded := by
  unfold upgradeFrame; simp [apply_ite]

@[simp] theorem upgradeFrame_preloadedBig (f : Int) (s : State) :
    (upgradeFrame f s).preloadedBig = s.preloadedBig := by
  unfold upgradeFrame; simp [apply_ite]

@[simp] theorem upgradeFrame_fetchLog (f : Int) (s : State) :
    (upgradeFrame f s).fetchLog = s.fetchLog := by
  unfold upgradeFrame; simp [apply_ite]

@[simp] theorem upgradeFrame_shownLog (f : Int) (s : State) :
    (upgradeFrame f s).shownLog = s.shownLog := by
  unfold upgradeFrame; simp [apply_ite]

@[simp] theorem upgradeFrame_lastCurrentImg (f : Int) (s : State) :
    (upgradeFrame f s).lastCurrentImg = s.lastCurrentImg := by
  unfold upgradeFrame; simp [apply_ite]

@[simp] theorem upgradeFrame_allPreloaded (f : Int) (s : State) :
    (upgradeFrame f s).allPreloaded = s.allPreloaded := by
  unfold upgradeFrame; simp [apply_ite]

@[simp] theorem upgradeLoaded_settings (f : Int) (s : State) :
    (upgradeLoaded f s).settings = s.settings := by
  unfold upgradeLoaded; split
  all_goals simp

@[simp] theorem upgradeLoaded_imgStrLen (f : Int) (s : State) :
    (upgradeLoaded f s).imgStrLen = s.imgStrLen := by
  unfold upgradeLoaded; split
  all_goals simp

@[simp] theorem upgradeLoaded_currentImg (f : Int) (s : State) :
    (upgradeLoaded f s).currentImg = s.currentImg := by
  unfold upgradeLoaded; split
  all_goals simp

@[simp] theorem upgradeLoaded_animating (f : Int) (s : State) :
    (upgradeLoaded f s).animating = s.animating := by
  unfold upgradeLoaded; split
  all_goals simp

@[simp] theorem upgradeLoaded_buffering (f : Int) (s : State) :
    (upgradeLoaded f s).buffering = s.buffering := by
  unfold upgradeLoaded; split
  all_goals simp

@[simp] theorem upgradeLoaded_preloaded (f : Int) (s : State) :
    (upgradeLoaded f s).preloaded = s.preloaded := by
  unfold upgradeLoaded; split
  all_goals simp

@[simp] theorem upgradeLoaded_fetchLog (f : Int) (s : State) :
    (upgradeLoaded f s).fetchLog = s.fetchLog := by
  unfold upgradeLoaded; split
  all_goals simp

@[simp] theorem upgradeLoaded_shownLog (f : Int) (s : State) :
    (upgradeLoaded f s).shownLog = s.shownLog := by
  unfold upgradeLoaded; split
  all_goals simp

@[simp] theorem upgradeLoaded_lastCurrentImg (f : Int) (s : State) :
    (upgradeLoaded f s).lastCurrentImg = s.lastCurrentImg := by
  unfold upgradeLoaded; split
  all_goals simp

@[simp] theorem upgradeLoaded_allPreloaded (f : Int) (s : State) :
    (upgradeLoaded f s).allPreloaded = s.allPreloaded := by
  unfold upgradeLoaded; split
  all_goals simp

/-! ## Membership characterization of buffer maintenance -/

theorem attachedHasFrame_iff (l : List Elem) (g : Int) :
    attachedHasFrame l g = true ↔ ∃ e ∈ l, e.frame = g := by
  simp [attachedHasFrame, List.any_eq_true]

theorem attachedHasFrame_append1 (l : List Elem) (e : Elem) (g : Int) :
    attachedHasFrame (l ++ [e]) g = (attachedHasFrame l g || (e.frame == g)) := by
  simp [attachedHasFrame, List.any_append]

/-- Membership after the pruning pass: the frame was attached and lies in the
closed window `[f - buffer, f + buffer]`. -/
theorem attachedHasFrame_pruned (f : Int) (s : State) (g : Int) :
    attachedHasFrame (prunedAttached f s) g = true ↔
      (attachedHasFrame s.attached g = true ∧
        f - s.settings.buffer ≤ g ∧ g ≤ f + s.settings.buffer) := by
  unfold prunedAttached
  rw [attachedHasFrame_iff, attachedHasFrame_iff]
  constructor
  · rintro ⟨e, hmem, hfr⟩
    obtain ⟨he, hp⟩ := List.mem_filter.mp hmem
    simp only [Bool.not_eq_true', Bool.or_eq_false_iff, decide_eq_false_iff_not, not_lt] at hp
    exact ⟨⟨e, he, hfr⟩, by omega⟩
  · rintro ⟨⟨e, he, hfr⟩, h1, h2⟩
    refine ⟨e, List.mem_filter.mpr ⟨he, ?_⟩, hfr⟩
    simp only [Bool.not_eq_true', Bool.or_eq_false_iff, decide_eq_false_iff_not, not_lt]
    omega

/-- Membership after one fill-loop iteration. -/
theorem bufferFillStep_mem (f i : Int) (s : State) (g : Int) :
    attachedHasFrame (bufferFillStep f s i).attached g = true ↔
      (attachedHasFrame s.attached g = true ∨
        (g = f + i ∧ 0 < g ∧ g ≤ s.settings.numImages)) := by
  unfold bufferFillStep
  by_cases hc : attachedHasFrame s.attached (f + i) = false ∧
      0 < f + i ∧ f + i ≤ s.settings.numImages
  · rw [if_pos hc]
    rw [markAsPreloaded_attached]
    rw [show ({ s with attached := s.attached ++
        [generateImg s.settings s.imgStrLen s.preloadedBig (f + i) false] } : State).attached =
        s.attached ++ [generateImg s.settings s.imgStrLen s.preloadedBig (f + i) false] from rfl]
    rw [attachedHasFrame_append1]
    simp only [Bool.or_eq_true, beq_iff_eq, generateImg_frame]
    constructor
    · rintro (h | h)
      · exact Or.inl h
      · exact Or.inr ⟨h.symm, by omega, by omega⟩
    · rintro (h | ⟨rfl, h1, h2⟩)
      · exact Or.inl h
      · exact Or.inr rfl
  · rw [if_neg hc]
    constructor
    · exact Or.inl
    · rintro (h | ⟨rfl, h1, h2⟩)
      · exact h
      · by_cases ha : attachedHasFrame s.attached (f + i) = true
        · exact ha
        · exact absurd ⟨by simpa using ha, h1, h2⟩ hc

/-- Membership after the whole fill loop. -/
theorem bufferFill_mem (f : Int) (offs : List Int) :
    ∀ (s : State) (g : Int),
      attachedHasFrame (bufferFill f offs s).attached g = true ↔
        (attachedHasFrame s.attached g = true ∨
          ∃ i ∈ offs, g = f + i ∧ 0 < g ∧ g ≤ s.settings.numImages) := by
  induction offs with
  | nil => intro s g; simp [bufferFill]
  | cons i rest ih =>
    intro s g
    have hstep := bufferFillStep_mem f i s g
    have h2 := ih (bufferFillStep f s i) g
    rw [bufferFillStep_settings] at h2
    show attachedHasFrame (bufferFill f rest (bufferFillStep f s i)).attached g = true ↔ _
    rw [h2, hstep]
    constructor
    · rintro ((h | ⟨hg, h1, h2⟩) | ⟨j, hj, hgj, hb1, hb2⟩)
      · exact Or.inl h
      · exact Or.inr ⟨i, by simp, hg, h1, h2⟩
      · exact Or.inr ⟨j, by simp [hj], hgj, hb1, hb2⟩
    · rintro (h | ⟨j, hj, hgj, hb1, hb2⟩)
      · exact Or.inl (Or.inl h)
      · rcases (by simpa using hj : j = i ∨ j ∈ rest) with rfl | hj2
        · exact Or.inl (Or.inr ⟨hgj, hb1, hb2⟩)
        · exact Or.inr ⟨j, hj2, hgj, hb1, hb2⟩

/-- The loop offsets are exactly the half-open integer window `[-b, b)`. -/
theorem mem_bufferOffsets (b i : Int) : i ∈ bufferOffsets b ↔ (-b ≤ i ∧ i < b) := by
  unfold bufferOffsets
  constructor
  · intro hmem
    obtain ⟨k, hk, hki⟩ := List.mem_map.mp hmem
    rw [List.mem_range] at hk
    omega
  · intro h
    apply List.mem_map.mpr
    refine ⟨(i + b).toNat, ?_, ?_⟩
    · rw [List.mem_range]
      omega
    · omega

/-- Membership in the display surface after `bufferFromFrame`: either a
pruning survivor (previously attached, in the closed window), or -- when the
pruned count was below `buffer * 2` -- a frame of the half-open fill window
intersected with the valid range `1..numImages`. -/
theorem bufferFromFrame_mem (f : Int) (s : State) (g : Int) :
    attachedHasFrame (bufferFromFrame f s).attached g = true ↔
      ((attachedHasFrame s.attached g = true ∧
          f - s.settings.buffer ≤ g ∧ g ≤ f + s.settings.buffer) ∨
        (((prunedAttached f s).length : Int) < s.settings.buffer * 2 ∧
          f - s.settings.buffer ≤ g ∧ g < f + s.settings.buffer ∧
          0 < g ∧ g ≤ s.settings.numImages)) := by
  unfold bufferFromFrame
  simp only [preload_attached]
  by_cases hlen : (((prunedAttached f s).length : Int) < s.settings.buffer * 2)
  · rw [if_pos hlen, bufferFill_mem]
    rw [attachedHasFrame_pruned]
    constructor
    · rintro (h | ⟨i, hi, hgi, h1, h2⟩)
      · exact Or.inl h
      · rw [mem_bufferOffsets] at hi
        exact Or.inr ⟨hlen, by omega, by omega, h1, h2⟩
    · rintro (⟨h, h1, h2⟩ | ⟨hl, hw1, hw2, h1, h2⟩)
      · exact Or.inl ⟨h, h1, h2⟩
      · exact Or.inr ⟨g - f, by rw [mem_bufferOffsets]; omega, by omega, h1, h2⟩
  · rw [if_neg hlen]
    rw [attachedHasFrame_pruned]
    constructor
    · exact Or.inl
    · rintro (h | ⟨hl, _⟩)
      · exact h
      · exact absurd hl hlen

/-! ## Monotonicity of the preload bookkeeping -/

theorem preloadNext_preloaded_mono (t : Nat) (g : Int) (s : State)
    (h : g ∈ s.preloaded) : g ∈ (preloadNext t s).preloaded := by
  unfold preloadNext onImagePreloaded
  dsimp only
  repeat' split
  all_goals first
    | exact h
    | exact mem_markAsPreloaded_mono _ _ _ h
    | simpa using h

theorem preload_preloaded_mono (g : Int) (s : State)
    (h : g ∈ s.preloaded) : g ∈ (preload s).preloaded := by
  unfold preload
  dsimp only
  repeat' split
  all_goals first
    | exact h
    | exact preloadNext_preloaded_mono _ _ _ h

theorem preloadNext_preloadedBig_mono (t : Nat) (g : Int) (s : State)
    (h : g ∈ s.preloadedBig) : g ∈ (preloadNext t s).preloadedBig := by
  unfold preloadNext onImagePreloaded
  dsimp only
  repeat' split
  all_goals first
    | exact h
    | exact mem_markBigAsPreloaded_mono _ _ _ h
    | simpa using h

theorem preload_preloadedBig_mono (g : Int) (s : State)
    (h : g ∈ s.preloadedBig) : g ∈ (preload s).preloadedBig := by
  unfold preload
  dsimp only
  repeat' split
  all_goals first
    | exact h
    | exact preloadNext_preloadedBig_mono _ _ _ h

theorem bufferFillStep_preloaded_mono (f i g : Int) (s : State)
    (h : g ∈ s.preloaded) : g ∈ (bufferFillStep f s i).preloaded := by
  unfold bufferFillStep
  dsimp only
  split
  · exact mem_markAsPreloaded_mono _ _ _ h
  · exact h

theorem bufferFill_preloaded_mono (f : Int) (offs : List Int) (s : State) (g : Int)
    (h : g ∈ s.preloaded) : g ∈ (bufferFill f offs s).preloaded :=
  foldl_pres (bufferFillStep f) (fun a b => ∀ x, x ∈ a.preloaded → x ∈ b.preloaded)
    (fun _ _ hx => hx) (fun _ _ _ h1 h2 x hx => h2 x (h1 x hx))
    (fun a x y hy => bufferFillStep_preloaded_mono f x y a hy) offs s g h

theorem bufferFromFrame_preloaded_mono (f g : Int) (s : State)
    (h : g ∈ s.preloaded) : g ∈ (bufferFromFrame f s).preloaded := by
  unfold bufferFromFrame
  dsimp only
  apply preload_preloaded_mono
  split
  · exact bufferFill_preloaded_mono _ _ _ _ h
  · exact h

theorem showFrame_preloaded_self (f : Int) (s : State) :
    f ∈ (showFrame f s).preloaded := by
  unfold showFrame
  dsimp only
  exact bufferFromFrame_preloaded_mono _ _ _ (mem_markAsPreloaded_self _ _)

theorem showFrame_preloaded_mono (f g : Int) (s : State)
    (h : g ∈ s.preloaded) : g ∈ (showFrame f s).preloaded := by
  unfold showFrame
  dsimp only
  exact bufferFromFrame_preloaded_mono _ _ _ (mem_markAsPreloaded_mono _ _ _ h)

theorem showFrameWhenReady_preloaded_mono (f g : Int) (s : State)
    (h : g ∈ s.preloaded) : g ∈ (showFrameWhenReady f s).preloaded := by
  unfold showFrameWhenReady
  dsimp only
  split
  · exact showFrame_preloaded_mono _ _ _ h
  · exact showFrame_preloaded_mono _ _ _ h

/-! ## Newly buffered frames are marked preloaded -/

theorem bufferFillStep_marks (f i : Int) (s : State) (g : Int)
    (hnew : attachedHasFrame (bufferFillStep f s i).attached g = true)
    (hold : attachedHasFrame s.attached g = false) :
    g ∈ (bufferFillStep f s i).preloaded := by
  revert hnew
  unfold bufferFillStep
  dsimp only
  split
  · intro hnew
    rw [markAsPreloaded_attached, attachedHasFrame_append1] at hnew
    simp only [Bool.or_eq_true, beq_iff_eq, generateImg_frame] at hnew
    rcases hnew with h | h
    · rw [hold] at h
      simp at h
    · subst h
      exact mem_markAsPreloaded_self _ _
  · intro hnew
    rw [hold] at hnew
    simp at hnew

theorem bufferFill_marks (f : Int) (offs : List Int) : ∀ (s : State) (g : Int),
    attachedHasFrame (bufferFill f offs s).attached g = true →
    attachedHasFrame s.attached g = false →
    g ∈ (bufferFill f offs s).preloaded := by
  induction offs with
  | nil =>
    intro s g h1 h2
    rw [show bufferFill f [] s = s from rfl] at h1
    rw [h1] at h2
    simp at h2
  | cons i rest ih =>
    intro s g h1 h2
    show g ∈ (bufferFill f rest (bufferFillStep f s i)).preloaded
    by_cases hb : attachedHasFrame (bufferFillStep f s i).attached g = true
    · exact bufferFill_preloaded_mono _ _ _ _ (bufferFillStep_marks f i s g hb h2)
    · exact ih (bufferFillStep f s i) g h1 (by simpa using hb)

theorem bufferFromFrame_marks (f : Int) (s : State) (g : Int)
    (h1 : attachedHasFrame (bufferFromFrame f s).attached g = true)
    (h2 : attachedHasFrame s.attached g = false) :
    g ∈ (bufferFromFrame f s).preloaded := by
  have hps : attachedHasFrame (prunedAttached f s) g = false := by
    by_contra hc
    have hc2 : attachedHasFrame (prunedAttached f s) g = true := by
      simpa using hc
    have := ((attachedHasFrame_pruned f s g).mp hc2).1
    rw [h2] at this
    simp at this
  revert h1
  unfold bufferFromFrame
  dsimp only
  simp only [preload_attached]
  split
  · intro h1
    apply preload_preloaded_mono
    exact bufferFill_marks f _ _ g h1 hps
  · intro h1
    apply preload_preloaded_mono
    rw [show ({ s with attached := prunedAttached f s } : State).attached =
        prunedAttached f s from rfl] at h1
    rw [hps] at h1
    simp at h1

/-! ## Visibility and duplicate-freeness of the display surface -/

theorem attachedHasFrame_eq_false (l : List Elem) (g : Int) :
    attachedHasFrame l g = false ↔ ∀ e ∈ l, e.frame ≠ g := by
  constructor
  · intro hf e he hfr
    have ht : attachedHasFrame l g = true := (attachedHasFrame_iff l g).mpr ⟨e, he, hfr⟩
    rw [hf] at ht
    simp at ht
  · intro hall
    by_contra hc
    have ht : attachedHasFrame l g = true := by simpa using hc
    obtain ⟨e, he, hfr⟩ := (attachedHasFrame_iff l g).mp ht
    exact hall e he hfr

theorem bufferFillStep_visible_sub (f i : Int) (s : State) :
    ∀ e ∈ (bufferFillStep f s i).attached, e.visible = true → e ∈ s.attached := by
  unfold bufferFillStep
  dsimp only
  split
  · intro e he hv
    rw [markAsPreloaded_attached] at he
    rcases List.mem_append.mp he with h | h
    · exact h
    · rw [List.mem_singleton.mp h] at hv
      rw [generateImg_visible] at hv
      simp at hv
  · intro e he _
    exact he

theorem bufferFill_visible_sub (f : Int) (offs : List Int) (s : State) :
    ∀ e ∈ (bufferFill f offs s).attached, e.visible = true → e ∈ s.attached :=
  foldl_pres (bufferFillStep f)
    (fun a b => ∀ e ∈ b.attached, e.visible = true → e ∈ a.attached)
    (fun _ _ he _ => he)
    (fun _ _ _ h1 h2 e he hv => h1 _ (h2 e he hv) hv)
    (fun a x e he hv => bufferFillStep_visible_sub f x a e he hv) offs s

theorem bufferFromFrame_visible_sub (f : Int) (s : State) :
    ∀ e ∈ (bufferFromFrame f s).attached, e.visible = true → e ∈ s.attached := by
  unfold bufferFromFrame
  dsimp only
  simp only [preload_attached]
  split
  · intro e he hv
    have h2 := bufferFill_visible_sub f _ _ e he hv
    exact (List.mem_filter.mp h2).1
  · intro e he _
    exact (List.mem_filter.mp he).1

theorem bufferFillStep_frames_nodup (f i : Int) (s : State)
    (h : (s.attached.map Elem.frame).Nodup) :
    ((bufferFillStep f s i).attached.map Elem.frame).Nodup := by
  unfold bufferFillStep
  dsimp only
  split
  · next hc =>
    rw [markAsPreloaded_attached]
    rw [show ({ s with attached := s.attached ++
        [generateImg s.settings s.imgStrLen s.preloadedBig (f + i) false] } : State).attached =
        s.attached ++ [generateImg s.settings s.imgStrLen s.preloadedBig (f + i) false] from rfl]
    rw [List.map_append]
    refine List.Nodup.append h (by simp) ?_
    intro a ha hb
    simp only [List.map_cons, List.map_nil, List.mem_singleton, generateImg_frame] at hb
    obtain ⟨e, he, hfr⟩ := List.mem_map.mp ha
    exact (attachedHasFrame_eq_false s.attached (f + i)).mp hc.1 e he (by rw [hfr, hb])
  · exact h

theorem bufferFill_frames_nodup (f : Int) (offs : List Int) (s : State)
    (h : (s.attached.map Elem.frame).Nodup) :
    ((bufferFill f offs s).attached.map Elem.frame).Nodup :=
  foldl_pres (bufferFillStep f)
    (fun a b => (a.attached.map Elem.frame).Nodup → (b.attached.map Elem.frame).Nodup)
    (fun _ hx => hx) (fun _ _ _ h1 h2 hx => h2 (h1 hx))
    (fun a x hx => bufferFillStep_frames_nodup f x a hx) offs s h

theorem bufferFromFrame_frames_nodup (f : Int) (s : State)
    (h : (s.attached.map Elem.frame).Nodup) :
    ((bufferFromFrame f s).attached.map Elem.frame).Nodup := by
  have hpr : ((prunedAttached f s).map Elem.frame).Nodup :=
    h.sublist ((List.filter_sublist s.attached).map Elem.frame)
  unfold bufferFromFrame
  dsimp only
  simp only [preload_attached]
  split
  · exact bufferFill_frames_nodup f _ _ hpr
  · exact hpr

theorem showFrame_visible_frame (f : Int) (s : State) :
    ∀ e ∈ (showFrame f s).attached, e.visible = true → e.frame = f := by
  unfold showFrame
  dsimp only
  intro e he hv
  have hmem := bufferFromFrame_visible_sub f _ e he hv
  rw [markAsPreloaded_attached] at hmem
  obtain ⟨e1, he1, hmap⟩ := List.mem_map.mp hmem
  by_cases hb : e1.frame == f
  · rw [if_pos hb] at hmap
    rw [← hmap]
    simpa using hb
  · rw [if_neg hb] at hmap
    obtain ⟨e0, _, hmap0⟩ := List.mem_map.mp he1
    rw [← hmap] at hv
    rw [← hmap0] at hv
    simp at hv

theorem showFrame_frames_nodup (f : Int) (s : State)
    (h : (s.attached.map Elem.frame).Nodup) :
    ((showFrame f s).attached.map Elem.frame).Nodup := by
  unfold showFrame
  dsimp only
  apply bufferFromFrame_frames_nodup
  rw [markAsPreloaded_attached]
  have hmaps : ∀ (l : List Elem),
      ((l.map (fun e => { e with visible := false })).map
        (fun e => if e.frame == f then { e with visible := true } else e)).map Elem.frame
      = l.map Elem.frame := by
    intro l
    induction l with
    | nil => rfl
    | cons x rest ih =>
      simp only [List.map_cons]
      rw [ih]
      congr 1
      dsimp only
      split <;> rfl
  rw [hmaps]
  exact h

theorem length_filter_le_of_imp (l : List Elem) (p q : Elem → Bool)
    (h : ∀ a ∈ l, p a = true → q a = true) :
    (l.filter p).length ≤ (l.filter q).length := by
  induction l with
  | nil => simp
  | cons x rest ih =>
    have hrest := ih (fun a ha hp => h a (List.mem_cons_of_mem x ha) hp)
    have hmono : (rest.filter q).length ≤ ((x :: rest).filter q).length := by
      rw [List.filter_cons]
      split
      · simp
      · exact le_refl _
    by_cases hp : p x = true
    · have hq := h x (by simp) hp
      rw [List.filter_cons_of_pos hp, List.filter_cons_of_pos hq]
      simpa using hrest
    · rw [List.filter_cons_of_neg (by simpa using hp)]
      exact le_trans hrest hmono

theorem frames_nodup_filter_len (l : List Elem) (f : Int)
    (h : (l.map Elem.frame).Nodup) :
    (l.filter (fun e => e.frame == f)).length ≤ 1 := by
  induction l with
  | nil => simp
  | cons e rest ih =>
    rw [List.map_cons] at h
    rcases List.nodup_cons.mp h with ⟨hnot, hrest⟩
    by_cases hb : (e.frame == f) = true
    · have hnil : rest.filter (fun e2 => e2.frame == f) = [] := by
        rw [List.filter_eq_nil_iff]
        intro e2 he2 hb2
        apply hnot
        apply List.mem_map.mpr
        refine ⟨e2, he2, ?_⟩
        have h1 : e2.frame = f := by simpa using hb2
        have h2 : e.frame = f := by simpa using hb
        rw [h1, h2]
      rw [List.filter_cons, if_pos hb, hnil]
      simp
    · rw [List.filter_cons, if_neg hb]
      exact ih hrest

/-- After `showFrame`, at most one attached element is visible (given the
data-model invariant that attached frame tags are duplicate-free). -/
theorem showFrame_visible_count (f : Int) (s : State)
    (h : (s.attached.map Elem.frame).Nodup) :
    ((showFrame f s).attached.filter (fun e => e.visible)).length ≤ 1 := by
  apply le_trans (length_filter_le_of_imp _ _ (fun e => e.frame == f) ?_)
  · exact frames_nodup_filter_len _ f (showFrame_frames_nodup f s h)
  · intro e he hv
    have := showFrame_visible_frame f s e he hv
    simpa using this

/-! ## Duplicate-freeness of the preload bookkeeping -/

theorem markAsPreloaded_of_mem (f : Int) (s : State) (h : f ∈ s.preloaded) :
    markAsPreloaded f s = s := by
  unfold markAsPreloaded
  rw [if_pos (List.elem_eq_true_of_mem h)]

theorem markBigAsPreloaded_of_mem (f : Int) (s : State) (h : f ∈ s.preloadedBig) :
    markBigAsPreloaded f s = s := by
  unfold markBigAsPreloaded
  rw [if_pos (List.elem_eq_true_of_mem h)]

theorem markAsPreloaded_nodup (f : Int) (s : State) (h : s.preloaded.Nodup) :
    (markAsPreloaded f s).preloaded.Nodup := by
  unfold markAsPreloaded
  split
  · exact h
  · next hc =>
    show (s.preloaded ++ [f]).Nodup
    refine List.Nodup.append h (by simp) ?_
    intro a ha hb
    rw [List.mem_singleton] at hb
    subst hb
    exact hc (List.elem_eq_true_of_mem ha)

theorem markBigAsPreloaded_nodup (f : Int) (s : State) (h : s.preloadedBig.Nodup) :
    (markBigAsPreloaded f s).preloadedBig.Nodup := by
  unfold markBigAsPreloaded
  split
  · exact h
  · next hc =>
    show (s.preloadedBig ++ [f]).Nodup
    refine List.Nodup.append h (by simp) ?_
    intro a ha hb
    rw [List.mem_singleton] at hb
    subst hb
    exact hc (List.elem_eq_true_of_mem ha)

theorem onImagePreloaded_nodup (i : Int) (t : Nat) (s : State)
    (h1 : s.preloaded.Nodup) (h2 : s.preloadedBig.Nodup) :
    (onImagePreloaded i t s).preloaded.Nodup ∧
    (onImagePreloaded i t s).preloadedBig.Nodup := by
  unfold onImagePreloaded
  repeat' split
  all_goals constructor
  all_goals first
    | exact h1
    | exact h2
    | exact markAsPreloaded_nodup _ _ h1
    | exact markBigAsPreloaded_nodup _ _ h2
    | simpa using h1
    | simpa using h2

theorem preloadNext_nodup (t : Nat) (s : State)
    (h1 : s.preloaded.Nodup) (h2 : s.preloadedBig.Nodup) :
    (preloadNext t s).preloaded.Nodup ∧ (preloadNext t s).preloadedBig.Nodup := by
  unfold preloadNext
  dsimp only
  repeat' split
  all_goals constructor
  all_goals first
    | exact h1
    | exact h2
    | exact (onImagePreloaded_nodup _ _ _ h1 h2).1
    | exact (onImagePreloaded_nodup _ _ _ h1 h2).2

theorem preload_nodup (s : State)
    (h1 : s.preloaded.Nodup) (h2 : s.preloadedBig.Nodup) :
    (preload s).preloaded.Nodup ∧ (preload s).preloadedBig.Nodup := by
  unfold preload
  dsimp only
  repeat' split
  all_goals first
    | exact ⟨h1, h2⟩
    | exact preloadNext_nodup _ _ h1 h2

theorem bufferFillStep_nodup (f i : Int) (s : State)
    (h1 : s.preloaded.Nodup) (h2 : s.preloadedBig.Nodup) :
    (bufferFillStep f s i).preloaded.Nodup ∧ (bufferFillStep f s i).preloadedBig.Nodup := by
  unfold bufferFillStep
  dsimp only
  split
  · constructor
    · exact markAsPreloaded_nodup _ _ h1
    · simpa using h2
  · exact ⟨h1, h2⟩

theorem bufferFill_nodup (f : Int) (offs : List Int) (s : State)
    (h1 : s.preloaded.Nodup) (h2 : s.preloadedBig.Nodup) :
    (bufferFill f offs s).preloaded.Nodup ∧ (bufferFill f offs s).preloadedBig.Nodup :=
  foldl_pres (bufferFillStep f)
    (fun a b => (a.preloaded.Nodup ∧ a.preloadedBig.Nodup) →
      (b.preloaded.Nodup ∧ b.preloadedBig.Nodup))
    (fun _ hx => hx) (fun _ _ _ ha hb hx => hb (ha hx))
    (fun a x hx => bufferFillStep_nodup f x a hx.1 hx.2) offs s ⟨h1, h2⟩

theorem bufferFromFrame_nodup (f : Int) (s : State)
    (h1 : s.preloaded.Nodup) (h2 : s.preloadedBig.Nodup) :
    (bufferFromFrame f s).preloaded.Nodup ∧ (bufferFromFrame f s).preloadedBig.Nodup := by
  unfold bufferFromFrame
  dsimp only
  split
  · apply preload_nodup
    · exact (bufferFill_nodup f (bufferOffsets s.settings.buffer)
        { s with attached := prunedAttached f s } h1 h2).1
    · exact (bufferFill_nodup f (bufferOffsets s.settings.buffer)
        { s with attached := prunedAttached f s } h1 h2).2
  · exact preload_nodup _ h1 h2

theorem showFrame_nodup (f : Int) (s : State)
    (h1 : s.preloaded.Nodup) (h2 : s.preloadedBig.Nodup) :
    (showFrame f s).preloaded.Nodup ∧ (showFrame f s).preloadedBig.Nodup := by
  unfold showFrame
  dsimp only
  apply bufferFromFrame_nodup
  · exact markAsPreloaded_nodup _ _ h1
  · simpa using h2

theorem showFrameWhenReady_nodup (f : Int) (s : State)
    (h1 : s.preloaded.Nodup) (h2 : s.preloadedBig.Nodup) :
    (showFrameWhenReady f s).preloaded.Nodup ∧
    (showFrameWhenReady f s).preloadedBig.Nodup := by
  unfold showFrameWhenReady
  dsimp only
  split
  · exact showFrame_nodup _ _ h1 h2
  · exact showFrame_nodup _ _ h1 h2

/-! ## No-refetch machinery -/

/-- A step from `a` to `b` preserves tier membership of `g` and, when `g` is
already recorded at tier `t`, appends only fetches other than `(g, t)` to the
fetch log. -/
def Preserves (g : Int) (t : Nat) (a b : State) : Prop :=
  (g ∈ tierList t a → g ∈ tierList t b) ∧
  (g ∈ tierList t a → ∃ l, b.fetchLog = a.fetchLog ++ l ∧ (g, t) ∉ l)

theorem preserves_refl (g : Int) (t : Nat) (s : State) : Preserves g t s s :=
  ⟨id, fun _ => ⟨[], by simp, by simp⟩⟩

theorem preserves_trans (g : Int) (t : Nat) (a b c : State)
    (h1 : Preserves g t a b) (h2 : Preserves g t b c) : Preserves g t a c := by
  refine ⟨fun hm => h2.1 (h1.1 hm), fun hm => ?_⟩
  obtain ⟨l1, he1, hn1⟩ := h1.2 hm
  obtain ⟨l2, he2, hn2⟩ := h2.2 (h1.1 hm)
  refine ⟨l1 ++ l2, ?_, ?_⟩
  · rw [he2, he1, List.append_assoc]
  · intro hc
    rcases List.mem_append.mp hc with h | h
    · exact hn1 h
    · exact hn2 h

theorem tier_mono_of (a b : State)
    (h1 : ∀ x ∈ a.preloaded, x ∈ b.preloaded)
    (h2 : ∀ x ∈ a.preloadedBig, x ∈ b.preloadedBig)
    (g : Int) (t : Nat) : g ∈ tierList t a → g ∈ tierList t b := by
  intro hm
  revert hm
  unfold tierList
  split
  · exact h1 g
  · split
    · exact h2 g
    · exact id

theorem preserves_of_untouched (g : Int) (t : Nat) (a b : State)
    (hm : g ∈ tierList t a → g ∈ tierList t b)
    (hf : b.fetchLog = a.fetchLog) : Preserves g t a b :=
  ⟨hm, fun _ => ⟨[], by simp [hf], by simp⟩⟩

theorem preserves_preloadNext (g : Int) (t ty : Nat) (s : State) :
    Preserves g t s (preloadNext ty s) := by
  constructor
  · exact tier_mono_of _ _ (fun x hx => preloadNext_preloaded_mono ty x s hx)
      (fun x hx => preloadNext_preloadedBig_mono ty x s hx) g t
  · intro hmem
    unfold preloadNext
    dsimp only
    split
    · split
      · next i hfind =>
        refine ⟨[(i, ty)], by simp, ?_⟩
        rw [List.mem_singleton]
        intro hc
        rw [Prod.mk.injEq] at hc
        obtain ⟨hgi, hty⟩ := hc
        subst hgi
        subst hty
        have hp := List.find?_some hfind
        simp only [Bool.or_eq_true, Bool.and_eq_true] at hp
        rcases hp with ⟨ht1, hnc⟩ | ⟨ht2, hnc⟩
        · have ht : t = 1 := by simpa using ht1
          subst ht
          have hmem1 : g ∈ s.preloaded := by
            simpa [tierList] using hmem
          have hcc : s.preloaded.contains g = true := List.elem_eq_true_of_mem hmem1
          rw [hcc] at hnc
          simp at hnc
        · have ht : t = 2 := by simpa using ht2
          subst ht
          have hmem2 : g ∈ s.preloadedBig := by
            simpa [tierList] using hmem
          have hcc : s.preloadedBig.contains g = true := List.elem_eq_true_of_mem hmem2
          rw [hcc] at hnc
          simp at hnc
      · exact ⟨[], by simp, by simp⟩
    · exact ⟨[], by simp, by simp⟩

theorem preserves_preload (g : Int) (t : Nat) (s : State) :
    Preserves g t s (preload s) := by
  unfold preload
  dsimp only
  repeat' split
  all_goals first
    | exact preserves_refl g t s
    | exact preserves_preloadNext g t _ s
    | exact preserves_trans g t s _ _
        (preserves_of_untouched g t s { s with allPreloaded := true }
          (tier_mono_of _ _ (fun x hx => hx) (fun x hx => hx) g t) rfl)
        (preserves_preloadNext g t _ { s with allPreloaded := true })

theorem preserves_markAsPreloaded (g : Int) (t : Nat) (f : Int) (s : State) :
    Preserves g t s (markAsPreloaded f s) :=
  preserves_of_untouched g t s _
    (tier_mono_of _ _ (fun x hx => mem_markAsPreloaded_mono f x s hx)
      (fun x hx => by simpa using hx) g t) (by simp)

theorem preserves_markBigAsPreloaded (g : Int) (t : Nat) (f : Int) (s : State) :
    Preserves g t s (markBigAsPreloaded f s) :=
  preserves_of_untouched g t s _
    (tier_mono_of _ _ (fun x hx => by simpa using hx)
      (fun x hx => mem_markBigAsPreloaded_mono f x s hx) g t) (by simp)

theorem preserves_bufferFillStep (g : Int) (t : Nat) (f : Int) (s : State) (i : Int) :
    Preserves g t s (bufferFillStep f s i) :=
  preserves_of_untouched g t s _
    (tier_mono_of _ _ (fun x hx => bufferFillStep_preloaded_mono f i x s hx)
      (fun x hx => by simpa using hx) g t) (by simp)

theorem preserves_bufferFill (g : Int) (t : Nat) (f : Int) (offs : List Int) (s : State) :
    Preserves g t s (bufferFill f offs s) :=
  foldl_pres (bufferFillStep f) (Preserves g t) (preserves_refl g t)
    (preserves_trans g t) (fun a x => preserves_bufferFillStep g t f a x) offs s

theorem preserves_bufferFromFrame (g : Int) (t : Nat) (f : Int) (s : State) :
    Preserves g t s (bufferFromFrame f s) := by
  unfold bufferFromFrame
  dsimp only
  split
  · refine preserves_trans g t s _ _ ?_ (preserves_preload g t _)
    refine preserves_trans g t s _ _ ?_
      (preserves_bufferFill g t f _ { s with attached := prunedAttached f s })
    exact preserves_of_untouched g t s _
      (tier_mono_of _ _ (fun x hx => hx) (fun x hx => hx) g t) rfl
  · refine preserves_trans g t s _ _ ?_ (preserves_preload g t _)
    exact preserves_of_untouched g t s _
      (tier_mono_of _ _ (fun x hx => hx) (fun x hx => hx) g t) rfl

theorem preserves_showFrame (g : Int) (t : Nat) (f : Int) (s : State) :
    Preserves g t s (showFrame f s) := by
  unfold showFrame
  dsimp only
  refine preserves_trans g t s _ _ ?_ (preserves_bufferFromFrame g t f _)
  refine preserves_trans g t s _ _ ?_ (preserves_markAsPreloaded g t f _)
  exact preserves_of_untouched g t s _
    (tier_mono_of _ _ (fun x hx => hx) (fun x hx => hx) g t) rfl

theorem preserves_showFrameWhenReady (g : Int) (t : Nat) (f : Int) (s : State) :
    Preserves g t s (showFrameWhenReady f s) := by
  unfold showFrameWhenReady
  dsimp only
  split
  · exact preserves_showFrame g t f s
  · refine preserves_trans g t s _ _ ?_ (preserves_showFrame g t f _)
    exact preserves_of_untouched g t s _
      (tier_mono_of _ _ (fun x hx => hx) (fun x hx => hx) g t) rfl

theorem preserves_upgradeFrame (g : Int) (t : Nat) (f : Int) (s : State) :
    Preserves g t s (upgradeFrame f s) := by
  unfold upgradeFrame
  dsimp only
  split
  · exact preserves_refl g t s
  · exact preserves_of_untouched g t s _
      (tier_mono_of _ _ (fun x hx => hx) (fun x hx => hx) g t) rfl

theorem preserves_upgradeLoaded (g : Int) (t : Nat) (f : Int) (s : State) :
    Preserves g t s (upgradeLoaded f s) := by
  unfold upgradeLoaded
  split
  · exact preserves_refl g t s
  · refine preserves_trans g t s _ _ ?_ (preserves_markBigAsPreloaded g t f _)
    exact preserves_of_untouched g t s _
      (tier_mono_of _ _ (fun x hx => hx) (fun x hx => hx) g t) rfl

theorem preserves_checkForScroll (g : Int) (t : Nat) (s : State) :
    Preserves g t s (checkForScroll s) := by
  unfold checkForScroll
  dsimp only
  split
  · refine preserves_trans g t s _ _ ?_ (preserves_preload g t _)
    split
    · refine preserves_trans g t s _ _ ?_ (preserves_upgradeFrame g t _ _)
      exact preserves_of_untouched g t s _
        (tier_mono_of _ _ (fun x hx => hx) (fun x hx => hx) g t) rfl
    · exact preserves_of_untouched g t s _
        (tier_mono_of _ _ (fun x hx => hx) (fun x hx => hx) g t) rfl
  · exact preserves_refl g t s

theorem preserves_animateStep (g : Int) (t : Nat) (a b c : ℚ) (s : State) :
    Preserves g t s (animateStep a b c s) := by
  unfold animateStep
  dsimp only
  split
  · split
    · refine preserves_trans g t s _ _ ?_ (preserves_showFrameWhenReady g t _ _)
      exact preserves_of_untouched g t s _
        (tier_mono_of _ _ (fun x hx => hx) (fun x hx => hx) g t) rfl
    · exact preserves_of_untouched g t s _
        (tier_mono_of _ _ (fun x hx => hx) (fun x hx => hx) g t) rfl
  · exact preserves_refl g t s

theorem preserves_scrollStep (g : Int) (t : Nat) (a b c : ℚ) (s : State) :
    Preserves g t s (scrollStep a b c s) := by
  unfold scrollStep
  dsimp only
  by_cases hA : s.animating = false
  · rw [if_pos hA]
    have h1 : Preserves g t s (animateStep a b c { s with animating := true }) :=
      preserves_trans g t s _ _
        (preserves_of_untouched g t s { s with animating := true }
          (tier_mono_of _ _ (fun x hx => hx) (fun x hx => hx) g t) rfl)
        (preserves_animateStep g t a b c { s with animating := true })
    exact preserves_trans g t s _ _ h1
      (preserves_of_untouched g t _ _
        (tier_mono_of _ _ (fun x hx => hx) (fun x hx => hx) g t) rfl)
  · rw [if_neg hA]
    exact preserves_of_untouched g t s _
      (tier_mono_of _ _ (fun x hx => hx) (fun x hx => hx) g t) rfl

theorem preserves_step (g : Int) (t : Nat) (s : State) (op : Op) :
    Preserves g t s (step s op) := by
  cases op with
  | scrollEv a b c => exact preserves_scrollStep g t a b c s
  | tick a b c => exact preserves_animateStep g t a b c s
  | settleTimer => exact preserves_checkForScroll g t s
  | preloadTimer => exact preserves_preload g t s
  | showReq f => exact preserves_showFrameWhenReady g t f s
  | bufferReq f => exact preserves_bufferFromFrame g t f s
  | upgradeReq f => exact preserves_upgradeFrame g t f s
  | upgradeLoadDone f => exact preserves_upgradeLoaded g t f s

theorem preserves_steps (g : Int) (t : Nat) (ops : List Op) (s : State) :
    Preserves g t s (steps s ops) :=
  foldl_pres step (Preserves g t) (preserves_refl g t)
    (preserves_trans g t) (preserves_step g t) ops s

/-! ## Claim theorems -/

/-- Claim C3: for every scrollTop, documentHeight and viewportHeight,
`calculateCurrent()` returns `max(1, ceil(numImages * scrollTop /
(documentHeight - viewportHeight)))`, and scrollTop = 0 yields frame 1. -/
theorem claimC3_calculateCurrent_formula (n : Int) (st dh vh : ℚ) :
    calculateCurrent n st dh vh = max 1 (Int.ceil ((n : ℚ) * st / (dh - vh))) ∧
    calculateCurrent n 0 dh vh = 1 := by
  constructor
  · unfold calculateCurrent
    rw [mul_div_assoc]
  · unfold calculateCurrent
    simp

/-- Claim C1: for every scroll offset within document bounds, the frame value
computed by `calculateCurrent()` lies in `[1, numImages]`, and one `animate()`
tick at an in-bounds scroll offset keeps the committed `currentImg` in
`[1, numImages]`. -/
theorem claimC1_currentImg_in_range (n : Int) (st dh vh : ℚ)
    (hn : 1 ≤ n) (_h0 : 0 ≤ st) (hb : st ≤ dh - vh) (hv : vh < dh) :
    (1 ≤ calculateCurrent n st dh vh ∧ calculateCurrent n st dh vh ≤ n) ∧
    (∀ s : State, s.settings.numImages = n → 1 ≤ s.currentImg → s.currentImg ≤ n →
      1 ≤ (animateStep st dh vh s).currentImg ∧
      (animateStep st dh vh s).currentImg ≤ n) := by
  have hd : (0 : ℚ) < dh - vh := by linarith
  have hcore : 1 ≤ calculateCurrent n st dh vh ∧ calculateCurrent n st dh vh ≤ n := by
    constructor
    · exact le_max_left 1 _
    · unfold calculateCurrent
      apply max_le hn
      rw [Int.ceil_le]
      have hr : st / (dh - vh) ≤ 1 := by
        rw [div_le_one hd]
        linarith
      have hnn : (0 : ℚ) ≤ (n : ℚ) := by
        exact_mod_cast (by omega : (0 : Int) ≤ n)
      calc (n : ℚ) * (st / (dh - vh)) ≤ (n : ℚ) * 1 := by
            exact mul_le_mul_of_nonneg_left hr hnn
        _ = (n : ℚ) := by ring
  refine ⟨hcore, ?_⟩
  intro s hnum h1 h2
  unfold animateStep
  dsimp only
  split
  · split
    · rw [showFrameWhenReady_currentImg]
      rw [show ({ s with currentImg :=
          calculateCurrent s.settings.numImages st dh vh } : State).currentImg =
          calculateCurrent s.settings.numImages st dh vh from rfl]
      rw [hnum]
      exact hcore
    · exact ⟨h1, h2⟩
  · exact ⟨h1, h2⟩

theorem claimC1_witness :
    ((1 ≤ calculateCurrent 5 1 3 1 ∧ calculateCurrent 5 1 3 1 ≤ 5) ∧
      (1 ≤ (animateStep 1 3 1 exState).currentImg ∧
        (animateStep 1 3 1 exState).currentImg ≤ 5)) :=
  ⟨(claimC1_currentImg_in_range 5 1 3 1 (by norm_num) (by norm_num) (by norm_num)
      (by norm_num)).1,
   (claimC1_currentImg_in_range 5 1 3 1 (by norm_num) (by norm_num) (by norm_num)
      (by norm_num)).2 exState rfl (by decide) (by decide)⟩

/-- Claim C9: the generated asset path is `directory + prefix +
zerofill(frame, width) + extension`, where `zerofill` left-pads with '0' to
the requested width, an explicit width overrides the default `imgStrLen`
(the decimal digit count of `numImages`, e.g. 3 for 345), and
`zerofill(7, 3) = "007"`. -/
theorem claimC9_asset_path :
    (∀ (isl : Nat) (num : Int) (w : Nat),
        zerofill isl num (some w) = zerofillSpec num w ∧
        zerofill isl num none = zerofillSpec num isl) ∧
    (∀ isl : Nat, zerofill isl 7 (some 3) = "007") ∧
    imgStrLenOf 345 = 3 ∧
    (∀ (st : Settings) (isl : Nat) (pb : List Int) (id : Int),
        pb.contains id = false →
        (generateImg st isl pb id false).src =
          st.imgDir ++ st.imgName ++ zerofill isl id none ++ st.imgFormat) ∧
    (∀ (st : Settings) (isl : Nat) (pb : List Int) (id : Int),
        (generateImg st isl pb id true).src =
          st.imgDirBig ++ st.imgName ++ zerofill isl id none ++ st.imgFormat) := by
  refine ⟨zerofill_eq_spec, ?_, by decide, ?_, ?_⟩
  · intro isl
    rw [(zerofill_eq_spec isl 7 3).1]
    decide
  · intro st isl pb id hpb
    have hnot : ¬(false = true ∨ pb.contains id = true) := by
      intro hc
      rcases hc with hc | hc
      · simp at hc
      · rw [hpb] at hc
        simp at hc
    unfold generateImg
    rw [if_neg hnot]
  · intro st isl pb id
    unfold generateImg
    rw [if_pos (Or.inl rfl)]

theorem claimC9_witness :
    zerofill 1 7 (some 3) = "007" ∧
    (generateImg exSettings 1 ([] : List Int) 5 false).src =
      exSettings.imgDir ++ exSettings.imgName ++ zerofill 1 5 none ++
        exSettings.imgFormat :=
  ⟨claimC9_asset_path.2.1 1,
   claimC9_asset_path.2.2.2.1 exSettings 1 [] 5 (by decide)⟩

/-- Claim C5: `bufferFromFrame(f)` (1) removes attached images outside the
closed window `[f - buffer, f + buffer]`; (2) when the remaining count is
below `2 * buffer`, attaches exactly the missing in-range frames of the
half-open window `[f - buffer, f + buffer)`, marking each newly attached
frame as preloaded; (3) clears the buffering flag and invokes `preload()`. -/
theorem claimC5_bufferFromFrame_spec (f : Int) (s : State) :
    (∀ g, attachedHasFrame (bufferFromFrame f s).attached g = true ↔
      ((attachedHasFrame s.attached g = true ∧
          f - s.settings.buffer ≤ g ∧ g ≤ f + s.settings.buffer) ∨
        (((prunedAttached f s).length : Int) < s.settings.buffer * 2 ∧
          f - s.settings.buffer ≤ g ∧ g < f + s.settings.buffer ∧
          0 < g ∧ g ≤ s.settings.numImages))) ∧
    (bufferFromFrame f s).buffering = false ∧
    (∀ g, attachedHasFrame s.attached g = false →
      attachedHasFrame (bufferFromFrame f s).attached g = true →
      g ∈ (bufferFromFrame f s).preloaded) ∧
    bufferFromFrame f s =
      preload { (if ((prunedAttached f s).length : Int) < s.settings.buffer * 2 then
          bufferFill f (bufferOffsets s.settings.buffer)
            { s with attached := prunedAttached f s }
        else { s with attached := prunedAttached f s }) with buffering := false } :=
  ⟨fun g => bufferFromFrame_mem f s g, by simp,
   fun g h2 h1 => bufferFromFrame_marks f s g h1 h2, rfl⟩

theorem claimC5_witness :
    attachedHasFrame exState.attached 2 = false ∧
    attachedHasFrame (bufferFromFrame 3 exState).attached 2 = true ∧
    2 ∈ (bufferFromFrame 3 exState).preloaded :=
  ⟨by decide, by decide,
   (claimC5_bufferFromFrame_spec 3 exState).2.2.1 2 (by decide) (by decide)⟩

theorem bufferFillStep_attached_mono (f i : Int) (s : State) (e : Elem)
    (he : e ∈ s.attached) : e ∈ (bufferFillStep f s i).attached := by
  unfold bufferFillStep
  dsimp only
  split
  · rw [markAsPreloaded_attached]
    exact List.mem_append_left _ he
  · exact he

theorem bufferFill_attached_mono (f : Int) (offs : List Int) (s : State) (e : Elem)
    (he : e ∈ s.attached) : e ∈ (bufferFill f offs s).attached :=
  foldl_pres (bufferFillStep f) (fun a b => ∀ x ∈ a.attached, x ∈ b.attached)
    (fun _ _ hx => hx) (fun _ _ _ h1 h2 x hx => h2 x (h1 x hx))
    (fun a i x hx => bufferFillStep_attached_mono f i a x hx) offs s e he

/-- An attached element whose frame lies in the closed window survives
buffer maintenance: pruning keeps it and the fill pass only appends. -/
theorem bufferFromFrame_attached_keep (f : Int) (s : State) (e : Elem)
    (he : e ∈ s.attached) (h1 : f - s.settings.buffer ≤ e.frame)
    (h2 : e.frame ≤ f + s.settings.buffer) :
    e ∈ (bufferFromFrame f s).attached := by
  have hpr : e ∈ prunedAttached f s := by
    unfold prunedAttached
    apply List.mem_filter.mpr
    refine ⟨he, ?_⟩
    simp only [Bool.not_eq_true', Bool.or_eq_false_iff, decide_eq_false_iff_not, not_lt]
    omega
  unfold bufferFromFrame
  dsimp only
  simp only [preload_attached]
  split
  · exact bufferFill_attached_mono f _ _ e hpr
  · exact hpr

/-- After `showFrame(f)` with frame `f` attached (and a nonnegative buffer
radius, so pruning keeps the current frame), the element tagged with `f` is
visible. -/
theorem showFrame_shows_target (f : Int) (s : State)
    (hatt : attachedHasFrame s.attached f = true) (hb : 0 ≤ s.settings.buffer) :
    ∃ e ∈ (showFrame f s).attached, e.frame = f ∧ e.visible = true := by
  obtain ⟨e0, he0, hf0⟩ := (attachedHasFrame_iff s.attached f).mp hatt
  unfold showFrame
  dsimp only
  refine ⟨{ src := e0.src, frame := e0.frame, upgraded := e0.upgraded, visible := true },
    ?_, hf0, rfl⟩
  apply bufferFromFrame_attached_keep
  · rw [markAsPreloaded_attached]
    apply List.mem_map.mpr
    refine ⟨{ src := e0.src, frame := e0.frame, upgraded := e0.upgraded, visible := false },
      ?_, ?_⟩
    · exact List.mem_map.mpr ⟨e0, he0, rfl⟩
    · simp [hf0]
  · simp only [markAsPreloaded_settings]
    rw [hf0]
    omega
  · simp only [markAsPreloaded_settings]
    rw [hf0]
    omega

/-- Claim C8: `showFrame(f)` invokes the `onShowFrame` callback with `f`,
marks `f` low-res preloaded, runs buffer maintenance (clearing the buffering
flag), shows the element tagged with frame `f` (when `f` is attached, as
`showFrameWhenReady` guarantees, and the buffer radius is nonnegative so
pruning keeps it), and leaves every visible element tagged with frame `f`
-- hence at most one visible image element, given duplicate-free attached
frame tags. -/
theorem claimC8_showFrame_spec (f : Int) (s : State)
    (hnd : (s.attached.map Elem.frame).Nodup) :
    (showFrame f s).shownLog = s.shownLog ++ [f] ∧
    f ∈ (showFrame f s).preloaded ∧
    (∀ e ∈ (showFrame f s).attached, e.visible = true → e.frame = f) ∧
    ((showFrame f s).attached.filter (fun e => e.visible)).length ≤ 1 ∧
    (showFrame f s).buffering = false ∧
    (attachedHasFrame s.attached f = true → 0 ≤ s.settings.buffer →
      ∃ e ∈ (showFrame f s).attached, e.frame = f ∧ e.visible = true) :=
  ⟨by simp, showFrame_preloaded_self f s, showFrame_visible_frame f s,
   showFrame_visible_count f s hnd, by simp, showFrame_shows_target f s⟩

theorem claimC8_witness :
    (exState.attached.map Elem.frame).Nodup ∧
    ((showFrame 3 exState).attached.filter (fun e => e.visible)).length ≤ 1 ∧
    3 ∈ (showFrame 3 exState).preloaded ∧
    (∃ e ∈ (showFrame 3 exState).attached, e.frame = 3 ∧ e.visible = true) :=
  ⟨by decide, (claimC8_showFrame_spec 3 exState (by decide)).2.2.2.1,
   (claimC8_showFrame_spec 3 exState (by decide)).2.1,
   (claimC8_showFrame_spec 3 exState (by decide)).2.2.2.2.2 (by decide) (by decide)⟩

/-- Claim C10: `markAsPreloaded` and `markBigAsPreloaded` are idempotent
(membership leaves the array unchanged), and `showFrame`, `bufferFromFrame`
and `onImagePreloaded` preserve duplicate-freeness of both preload arrays. -/
theorem claimC10_idempotent_marking (s : State) (f i : Int) (t : Nat) :
    (f ∈ s.preloaded → markAsPreloaded f s = s) ∧
    (f ∈ s.preloadedBig → markBigAsPreloaded f s = s) ∧
    (s.preloaded.Nodup → s.preloadedBig.Nodup →
      (showFrame f s).preloaded.Nodup ∧ (showFrame f s).preloadedBig.Nodup ∧
      (bufferFromFrame f s).preloaded.Nodup ∧
      (bufferFromFrame f s).preloadedBig.Nodup ∧
      (onImagePreloaded i t s).preloaded.Nodup ∧
      (onImagePreloaded i t s).preloadedBig.Nodup) :=
  ⟨markAsPreloaded_of_mem f s, markBigAsPreloaded_of_mem f s,
   fun h1 h2 => ⟨(showFrame_nodup f s h1 h2).1, (showFrame_nodup f s h1 h2).2,
     (bufferFromFrame_nodup f s h1 h2).1, (bufferFromFrame_nodup f s h1 h2).2,
     (onImagePreloaded_nodup i t s h1 h2).1, (onImagePreloaded_nodup i t s h1 h2).2⟩⟩

theorem claimC10_witness :
    markAsPreloaded 3 exState = exState ∧
    (showFrame 3 exState).preloaded.Nodup :=
  ⟨(claimC10_idempotent_marking exState 3 0 1).1 (by decide),
   ((claimC10_idempotent_marking exState 3 0 1).2.2 (by decide) (by decide)).1⟩

/-- Claim C7: once a frame is recorded as preloaded at a resolution tier, no
later sequence of operations makes `preloadNext` fetch it again at that tier:
membership persists and every later fetch-log entry differs from `(f, t)`. -/
theorem claimC7_no_refetch (s : State) (ops : List Op) (f : Int) (t : Nat)
    (h : f ∈ tierList t s) :
    f ∈ tierList t (steps s ops) ∧
    ∃ l, (steps s ops).fetchLog = s.fetchLog ++ l ∧ (f, t) ∉ l :=
  ⟨(preserves_steps f t ops s).1 h, (preserves_steps f t ops s).2 h⟩

theorem claimC7_witness :
    (3 : Int) ∈ tierList 1 exState ∧
    ((3 : Int) ∈ tierList 1 (steps exState [Op.preloadTimer]) ∧
      ∃ l, (steps exState [Op.preloadTimer]).fetchLog = exState.fetchLog ++ l ∧
        ((3 : Int), 1) ∉ l) :=
  ⟨by decide, claimC7_no_refetch exState [Op.preloadTimer] 3 1 (by decide)⟩

/-- Claim C2 is false as stated: from the canonical state in which exactly the
current frame 3 is attached (numImages = 5, buffer = 1), frame 4 lies in the
claimed symmetric window (|4 - 3| <= buffer, 1 <= 4 <= numImages) yet is not
attached after `bufferFromFrame(3)` completes: the fill loop is half-open. -/
theorem claimC2_counterexample :
    (|(4 : Int) - 3| ≤ exState.settings.buffer ∧ (1 : Int) ≤ 4 ∧
      (4 : Int) ≤ exState.settings.numImages) ∧
    attachedHasFrame (bufferFromFrame 3 exState).attached 4 = false := by
  constructor
  · refine ⟨by decide, by decide, by decide⟩
  · decide

/-- Claim C2 (amended): starting from the state where exactly the current
frame `f` is attached (the state right after first showing `f`), the attached
set after `bufferFromFrame(f)` equals the half-open window
`{g : f - buffer ≤ g < f + buffer}` intersected with `[1, numImages]` -- the
source loop bound is `< buffer`, not `≤ buffer` -- and this attached set is a
fixed point of further `bufferFromFrame(f)` calls (the steady state). -/
theorem claimC2_halfOpenWindow (s : State) (f : Int) (e : Elem)
    (hatt : s.attached = [e]) (hef : e.frame = f) (hb : 1 ≤ s.settings.buffer)
    (hf1 : 1 ≤ f) (hfN : f ≤ s.settings.numImages) :
    (∀ g, attachedHasFrame (bufferFromFrame f s).attached g = true ↔
      (f - s.settings.buffer ≤ g ∧ g < f + s.settings.buffer ∧
        1 ≤ g ∧ g ≤ s.settings.numImages)) ∧
    (∀ g, attachedHasFrame (bufferFromFrame f (bufferFromFrame f s)).attached g = true ↔
      attachedHasFrame (bufferFromFrame f s).attached g = true) := by
  have hhas : ∀ g, attachedHasFrame s.attached g = true ↔ g = f := by
    intro g
    rw [hatt]
    simp [attachedHasFrame, hef]
    exact eq_comm
  have hpred : (!(e.frame < f - s.settings.buffer ||
      e.frame > f + s.settings.buffer) : Bool) = true := by
    simp only [Bool.not_eq_true', Bool.or_eq_false_iff, decide_eq_false_iff_not, not_lt]
    omega
  have hpr : prunedAttached f s = [e] := by
    unfold prunedAttached
    rw [hatt]
    rw [List.filter_cons, if_pos hpred]
    rfl
  have hlen : ((prunedAttached f s).length : Int) < s.settings.buffer * 2 := by
    rw [hpr]
    simp
    omega
  have hchar : ∀ g, attachedHasFrame (bufferFromFrame f s).attached g = true ↔
      (f - s.settings.buffer ≤ g ∧ g < f + s.settings.buffer ∧
        1 ≤ g ∧ g ≤ s.settings.numImages) := by
    intro g
    rw [bufferFromFrame_mem]
    constructor
    · rintro (⟨hg, h1, h2⟩ | ⟨_, h1, h2, h3, h4⟩)
      · have hgf : g = f := (hhas g).mp hg
        subst hgf
        exact ⟨by omega, by omega, by omega, by omega⟩
      · exact ⟨h1, h2, by omega, h4⟩
    · rintro ⟨h1, h2, h3, h4⟩
      exact Or.inr ⟨hlen, h1, h2, by omega, h4⟩
  refine ⟨hchar, ?_⟩
  intro g
  have hm := bufferFromFrame_mem f (bufferFromFrame f s) g
  simp only [bufferFromFrame_settings] at hm
  rw [hm]
  constructor
  · rintro (⟨hg, _, _⟩ | ⟨_, hw1, hw2, h3, h4⟩)
    · exact hg
    · exact (hchar g).mpr ⟨hw1, hw2, by omega, h4⟩
  · intro hg
    have hw := (hchar g).mp hg
    exact Or.inl ⟨hg, by omega, by omega⟩

theorem claimC2_witness :
    (attachedHasFrame (bufferFromFrame 3 exState).attached 2 = true ↔
      (3 - exState.settings.buffer ≤ 2 ∧ 2 < 3 + exState.settings.buffer ∧
        (1 : Int) ≤ 2 ∧ (2 : Int) ≤ exState.settings.numImages)) :=
  (claimC2_halfOpenWindow exState 3 exElem rfl rfl (by decide) (by decide)
    (by decide)).1 2

/-- An options object whose required fields are all present, with
`numImages` supplied as 0. -/
def cexOptions : Options :=
  { numImages := some 0, imgDir := some "d/", imgName := some "f"
    imgFormat := none, upgradeHighRes := none, imgDirBig := none
    buffer := none, preload := none }

/-- An options object with every key absent. -/
def missingOptions : Options :=
  { numImages := none, imgDir := none, imgName := none
    imgFormat := none, upgradeHighRes := none, imgDirBig := none
    buffer := none, preload := none }

/-- Claim C4 is false as stated: with all required fields *present*
(`numImages = 0`), no high-res inconsistency and the imagesLoaded collaborator
available, `init` still throws -- the source tests JS truthiness
(`!options[key]`), not absence. -/
theorem claimC4_counterexample :
    cexOptions.numImages.isSome = true ∧ cexOptions.imgDir.isSome = true ∧
    cexOptions.imgName.isSome = true ∧ cexOptions.upgradeHighRes ≠ some true ∧
    (init cexOptions true 0 2 1 exState).2.isSome = true := by
  refine ⟨rfl, rfl, rfl, by decide, by decide⟩

/-- Claim C4 (amended): `init` throws exactly when a required field among
numImages, imgDir, imgName is absent *or falsy* (0, empty string), or
upgradeHighRes is true without a truthy imgDirBig, or the imagesLoaded
collaborator is unavailable; every failure occurs before the settings merge
and any setup, leaving the module state unchanged. -/
theorem claimC4_init_errors (o : Options) (hIL : Bool) (a b c : ℚ) (s : State) :
    ((init o hIL a b c s).2.isSome = true ↔
      (truthyInt o.numImages = false ∨ truthyStr o.imgDir = false ∨
        truthyStr o.imgName = false ∨
        (o.upgradeHighRes = some true ∧ truthyStr o.imgDirBig = false) ∨
        hIL = false)) ∧
    ((init o hIL a b c s).2.isSome = true → (init o hIL a b c s).1 = s) := by
  unfold init
  dsimp only
  repeat' split
  all_goals simp_all

theorem claimC4_witness :
    (init missingOptions true 0 2 1 exState).2.isSome = true ∧
    (init missingOptions true 0 2 1 exState).1 = exState :=
  ⟨by decide,
   (claimC4_init_errors missingOptions true 0 2 1 exState).2 (by decide)⟩

/-! ## Settle-detection helpers -/

theorem find?_replaceFrame (l : List Elem) (f : Int) (x : Elem)
    (hx : x.frame = f) (h : attachedHasFrame l f = true) :
    (replaceFrame l f x).find? (fun e => e.frame == f) = some x := by
  induction l with
  | nil => simp [attachedHasFrame] at h
  | cons e rest ih =>
    unfold replaceFrame
    by_cases hb : (e.frame == f) = true
    · rw [if_pos hb]
      rw [List.find?_cons]
      simp [hx]
    · rw [if_neg hb]
      rw [List.find?_cons]
      have hrest : attachedHasFrame rest f = true := by
        simp only [attachedHasFrame, List.any_cons, Bool.or_eq_true] at h
        rcases h with h | h
        · exact absurd h hb
        · exact h
      simp only [hb]
      exact ih hrest

/-- Once an upgrade for an attached frame has completed, a further
`upgradeFrame` call for that frame is a no-op: the spliced element is tagged
`data-upgraded="1"`. -/
theorem upgradeLoaded_then_noop (f : Int) (s : State) (hi : Elem)
    (hst : s.staged = some hi) (hup : hi.upgraded = true) (hfr : hi.frame = f)
    (hatt : attachedHasFrame s.attached f = true) :
    upgradeFrame f (upgradeLoaded f s) = upgradeLoaded f s := by
  have htag : elemTagged (upgradeLoaded f s) f = true := by
    unfold upgradeLoaded
    rw [hst]
    dsimp only
    unfold elemTagged
    rw [markBigAsPreloaded_attached]
    dsimp only
    rw [find?_replaceFrame s.attached f { hi with visible := true } hfr hatt]
    exact hup
  unfold upgradeFrame
  rw [if_pos htag]

theorem frameRange_cons (n : Int) (h : 1 ≤ n) :
    ∃ rest, frameRange n = 1 :: rest := by
  unfold frameRange
  have hn : n.toNat = (n.toNat - 1) + 1 := by omega
  rw [hn, List.range_succ_eq_map]
  refine ⟨(List.range (n.toNat - 1)).map (fun (k : Nat) => ((k : Int) + 2)), ?_⟩
  simp only [List.map_cons, List.map_map]
  have hf : ((fun (k : Nat) => ((k : Int) + 1)) ∘ Nat.succ) =
      (fun (k : Nat) => ((k : Int) + 2)) := by
    funext k
    simp [Function.comp, Nat.succ_eq_add_one]
    ring
  rw [hf]
  norm_num

/-- When preloading is enabled, low-res preloading is incomplete, frame 1 is
not yet preloaded and neither animating nor buffering holds, `preload()`
fetches frame 1 at the low-res tier. -/
theorem preload_fetch_first (s2 : State) (hp : s2.settings.preload = true)
    (ha : s2.animating = false) (hb : s2.buffering = false)
    (hlen : (s2.preloaded.length : Int) < s2.settings.numImages)
    (hc1 : s2.preloaded.contains 1 = false) (hn1 : 1 ≤ s2.settings.numImages) :
    (preload s2).fetchLog = s2.fetchLog ++ [((1 : Int), 1)] := by
  unfold preload
  rw [if_pos hp, if_pos hlen]
  unfold preloadNext
  rw [if_pos ⟨ha, hb⟩]
  obtain ⟨rest, hfr⟩ := frameRange_cons s2.settings.numImages hn1
  rw [hfr]
  have h1m : (1 : Int) ∉ s2.preloaded := by
    intro hm
    have hcc : s2.preloaded.contains 1 = true := List.elem_eq_true_of_mem hm
    rw [hcc] at hc1
    simp at hc1
  have hfind : List.find? (fun i => ((1 : Nat) == 1 && !s2.preloaded.contains i) ||
      ((1 : Nat) == 2 && !s2.preloadedBig.contains i)) (1 :: rest) = some 1 := by
    rw [List.find?_cons]
    simp [h1m]
  rw [hfind]
  simp

/-- Claim C6: when the debounce timer fires and the frame recorded at
scroll-event time equals the current frame, `checkForScroll` stops animating,
stages the high-res upgrade of the current frame iff `upgradeHighRes` is
enabled (a no-op for an already-upgraded frame, and a completed upgrade tags
the frame so it is upgraded at most once), and resumes preloading (now that
`animating` is false, an outstanding low-res fetch is issued); when the
compared frames differ, the state is unchanged. -/
theorem claimC6_settle_detection (s : State) :
    (s.lastCurrentImg ≠ s.currentImg → checkForScroll s = s) ∧
    (s.lastCurrentImg = s.currentImg →
      (checkForScroll s).animating = false ∧
      (s.settings.upgradeHighRes = false →
        (checkForScroll s).staged = s.staged ∧
        (checkForScroll s).attached = s.attached) ∧
      (s.settings.upgradeHighRes = true → elemTagged s s.currentImg = false →
        (checkForScroll s).staged =
          some (generateImg s.settings s.imgStrLen s.preloadedBig s.currentImg true)) ∧
      (s.settings.upgradeHighRes = true → elemTagged s s.currentImg = true →
        (checkForScroll s).staged = s.staged) ∧
      (s.settings.preload = true → s.buffering = false →
        (s.preloaded.length : Int) < s.settings.numImages →
        s.preloaded.contains 1 = false → 1 ≤ s.settings.numImages →
        (checkForScroll s).fetchLog = s.fetchLog ++ [((1 : Int), 1)])) ∧
    (∀ f hi, s.staged = some hi → hi.upgraded = true → hi.frame = f →
      attachedHasFrame s.attached f = true →
      upgradeFrame f (upgradeLoaded f s) = upgradeLoaded f s) := by
  refine ⟨?_, ?_, ?_⟩
  · intro hne
    unfold checkForScroll
    rw [if_neg hne]
  · intro hset
    have hcfs : checkForScroll s = preload (if s.settings.upgradeHighRes = true then
        upgradeFrame s.currentImg { s with animating := false }
      else { s with animating := false }) := by
      unfold checkForScroll
      rw [if_pos hset]
    refine ⟨?_, ?_, ?_, ?_, ?_⟩
    · rw [hcfs]
      simp [apply_ite]
    · intro hflag
      rw [hcfs, if_neg (by simp [hflag])]
      constructor <;> simp
    · intro hflag htagf
      rw [hcfs, if_pos hflag, preload_staged]
      unfold upgradeFrame
      dsimp only
      rw [if_neg (by rw [show elemTagged { s with animating := false } s.currentImg =
        elemTagged s s.currentImg from rfl, htagf]; simp)]
    · intro hflag htagt
      rw [hcfs, if_pos hflag, preload_staged]
      unfold upgradeFrame
      dsimp only
      rw [if_pos (by rw [show elemTagged { s with animating := false } s.currentImg =
        elemTagged s s.currentImg from rfl]; exact htagt)]
    · intro hp hbuf hlen hc1 hn1
      rw [hcfs]
      have hfld : (if s.settings.upgradeHighRes = true then
          upgradeFrame s.currentImg { s with animating := false }
        else { s with animating := false }).settings = s.settings := by
        split <;> simp
      have hanim : (if s.settings.upgradeHighRes = true then
          upgradeFrame s.currentImg { s with animating := false }
        else { s with animating := false }).animating = false := by
        split <;> simp
      have hbuf2 : (if s.settings.upgradeHighRes = true then
          upgradeFrame s.currentImg { s with animating := false }
        else { s with animating := false }).buffering = s.buffering := by
        split <;> simp
      have hpre2 : (if s.settings.upgradeHighRes = true then
          upgradeFrame s.currentImg { s with animating := false }
        else { s with animating := false }).preloaded = s.preloaded := by
        split <;> simp
      have hfetch2 : (if s.settings.upgradeHighRes = true then
          upgradeFrame s.currentImg { s with animating := false }
        else { s with animating := false }).fetchLog = s.fetchLog := by
        split <;> simp
      rw [preload_fetch_first _ (by rw [hfld]; exact hp) hanim
        (by rw [hbuf2]; exact hbuf) (by rw [hpre2, hfld]; exact hlen)
        (by rw [hpre2]; exact hc1) (by rw [hfld]; exact hn1), hfetch2]
  · intro f hi hst hup hfr hatt
    exact upgradeLoaded_then_noop f s hi hst hup hfr hatt

/-- Settings as in `exSettings` but with the high-res upgrade enabled. -/
def exSettingsUp : Settings :=
  { exSettings with upgradeHighRes := true, imgDirBig := "b/" }

/-- A settled state (`lastCurrentImg = currentImg`) with high-res upgrade
enabled and the current frame not yet upgraded. -/
def exStateUp : State :=
  { exState with settings := exSettingsUp }

theorem claimC6_witness :
    (checkForScroll exStateUp).animating = false ∧
    (checkForScroll exStateUp).staged = some (generateImg exStateUp.settings
      exStateUp.imgStrLen exStateUp.preloadedBig exStateUp.currentImg true) :=
  ⟨((claimC6_settle_detection exStateUp).2.1 (by decide)).1,
   ((claimC6_settle_detection exStateUp).2.1 (by decide)).2.2.1 (by decide) (by decide)⟩
